import Mathlib

/-!
# Verification of the gesture-interpretation core (`src/composables/useGesture.ts`)

This file gives a shallow embedding of the gesture interpreter of the
`vue-mediapipe-worker` repository and proves/refutes the specification
claims about it.

Modelling conventions:
* JS `number` is modelled as `ℚ` (exact arithmetic; the claims under study
  are about control flow, orderings and exact algebraic identities, none of
  which depend on floating-point rounding).
* `Math.sqrt` is modelled by an abstract function `msqrt : ℚ → ℚ` passed to
  every definition that needs it; universally quantified theorems hold for
  every such function, and concrete witnesses instantiate it with `ratSqrt`,
  which is exact on the perfect-square inputs used by the witnesses.
* A hand is a `List Landmark`; `hand[i]` in JS is `hand[i]?` (an absent
  index is `undefined`, i.e. `none`).  Reading a property of `undefined`
  throws a `TypeError`; a computation that throws is modelled as
  `Except.error ()`, one that completes as `Except.ok`.
* `events : Record<string, boolean>` only ever receives the ten fixed keys
  below, and is only read by truthiness checks, so it is modelled as a
  structure of ten `Bool` fields (`false` = key absent/falsy).
* `performance.now()` is the explicit argument `now`.  `setTimeout(f, 300)`
  stores the deadline `now + 300` in `clickTimer`; the JS callback (which
  only does `clickCount = 0`) runs between message handlers once the
  deadline has passed, which `fireDueTimer` performs at the start of a
  scheduling step (`interpStep`).  `clearTimeout` drops the stored deadline.
  (JS keeps a stale timer handle after firing/clearing, but that handle is
  only ever passed to `clearTimeout`, a no-op then, so the models agree
  observationally.)
* `window.innerWidth/innerHeight` are modelled as the fields
  `innerWidth/innerHeight` of `Config` (environment values read at the
  cursor-scaling step).
-/

/-- `Math.sqrt` stand-in for concrete witnesses: a finite table that is
exact on every squared distance occurring in the concrete hands of this
file (`0.02² = 1/2500`, `0.1² = 1/100`, `0.2² = 1/25`).  All universally
quantified theorems hold for an arbitrary `msqrt`; witnesses may therefore
instantiate it with any function. -/
def sqrtT (q : ℚ) : ℚ :=
  if q = 1/2500 then 1/50
  else if q = 1/100 then 1/10
  else if q = 1/25 then 1/5
  else 1

/-- `type GestureMode = 'none' | 'click' | 'drag' | 'rotate' | 'scroll'` (useGesture.ts:7). -/
inductive GestureMode where
  | none | click | drag | rotate | scroll
  deriving DecidableEq

/-- `type HandPreference = 'Left' | 'Right' | 'Both'` (useGesture.ts:8). -/
inductive HandPreference where
  | Left | Right | Both
  deriving DecidableEq

/-- The string label a `HandPreference` is compared against
(`label === config.hand`, useGesture.ts:266). -/
def HandPreference.label : HandPreference → String
  | .Left => "Left"
  | .Right => "Right"
  | .Both => "Both"

/-- `type SmoothingProfile = 'Fast' | 'Balanced' | 'Smooth'` (useGesture.ts:9). -/
inductive SmoothingProfile where
  | Fast | Balanced | Smooth
  deriving DecidableEq

/-- `BUFFER_SIZE_MAP` (useGesture.ts:68-72).  The JS read site
`BUFFER_SIZE_MAP[config.smoothing] || 5` cannot take its `|| 5` fallback
because the map is total on `SmoothingProfile`. -/
def bufferSizeMap : SmoothingProfile → Nat
  | .Fast => 2
  | .Balanced => 5
  | .Smooth => 10

/-- One normalized landmark `{x, y, z}` (spec §3; produced by the worker). -/
structure Landmark where
  x : ℚ
  y : ℚ
  z : ℚ
  deriving DecidableEq

/-- One classification entry `{categoryName}` as consumed by `handleResult`. -/
structure Category where
  categoryName : String
  deriving DecidableEq

/-- The `simpleResult` shape posted by the worker (useGesture.ts:121-125):
`landmarks` is the list of hands, `handednesses[i]` the ranked handedness
categories of hand `i`, `gestures[i]` the ranked gesture categories
(`.categories`) of hand `i`. -/
structure DetectionResult where
  landmarks : List (List Landmark)
  handednesses : List (List Category)
  gestures : List (List Category)
  deriving DecidableEq

/-- The runtime configuration read on every step (useGesture.ts:44-49),
plus the viewport dimensions (`window.innerWidth/innerHeight`,
useGesture.ts:360-361).  `videoSource` only affects camera acquisition,
which is outside the interpreter, and is omitted. -/
structure Config where
  hand : HandPreference
  smoothing : SmoothingProfile
  roi : ℚ
  innerWidth : ℚ
  innerHeight : ℚ
  deriving DecidableEq

/-- The ten event keys ever written into `events` (useGesture.ts:378-447).
A `false` field models an absent key. -/
structure Events where
  CLICK : Bool
  DOUBLE_CLICK : Bool
  DRAG_START : Bool
  DRAG_MOVE : Bool
  DRAG_END : Bool
  DRAG_MIDDLE_START : Bool
  DRAG_MIDDLE_MOVE : Bool
  DRAG_MIDDLE_END : Bool
  IDLE : Bool
  POINTER_MOVE : Bool
  deriving DecidableEq

/-- The empty event record `{}`. -/
def noEvents : Events :=
  ⟨false, false, false, false, false, false, false, false, false, false⟩

/-- `{ 'IDLE': true }` as set by `resetState` (useGesture.ts:247). -/
def idleEvents : Events := { noEvents with IDLE := true }

/-- `gestureState.value.cursor` (useGesture.ts:12-17). -/
structure Cursor where
  x : ℚ
  y : ℚ
  active : Bool
  mode : GestureMode
  deriving DecidableEq

/-- `gestureState.value.debugInfo` (useGesture.ts:20-27). -/
structure DebugInfo where
  rootPos : ℚ × ℚ
  handScale : ℚ
  roi : ℚ
  effectiveRoi : ℚ
  landmarks : List Landmark
  handedness : String
  deriving DecidableEq

/-- `GestureState` (useGesture.ts:11-28). -/
structure GestureState where
  cursor : Cursor
  gestures : List String
  events : Events
  debugInfo : DebugInfo
  deriving DecidableEq

/-- The persistent `STATE` object (useGesture.ts:228-236).
`lastPinchTime` and `lastPosition` are declared in the source but never
read or written by `handleResult`; they are kept for shape fidelity. -/
structure MachineState where
  lastPinchTime : ℚ
  clickCount : Nat
  clickTimer : Option ℚ
  dragStartTime : ℚ
  isDragging : Bool
  isMiddleDragging : Bool
  lastPosition : ℚ × ℚ
  deriving DecidableEq

/-- Everything the interpreter mutates across calls: the reactive
`gestureState`, the `STATE` machine variables, and the module-level
`positionBuffer` (useGesture.ts:52-72, 227-236). -/
structure InterpState where
  gesture : GestureState
  machine : MachineState
  positionBuffer : List (ℚ × ℚ)
  deriving DecidableEq

/-- Initial `gestureState.value` (useGesture.ts:52-64). -/
def initialGesture : GestureState :=
  { cursor := { x := 0, y := 0, active := false, mode := GestureMode.none },
    gestures := [],
    events := noEvents,
    debugInfo :=
      { rootPos := (0, 0), handScale := 1, roi := 8/10, effectiveRoi := 8/10,
        landmarks := [], handedness := "Unknown" } }

/-- Initial `STATE` (useGesture.ts:228-236). -/
def initialMachine : MachineState :=
  { lastPinchTime := 0, clickCount := 0, clickTimer := Option.none,
    dragStartTime := 0, isDragging := false, isMiddleDragging := false,
    lastPosition := (0, 0) }

/-- Interpreter state at startup: empty smoothing buffer. -/
def initialState : InterpState :=
  { gesture := initialGesture, machine := initialMachine, positionBuffer := [] }

/-- `calculateDistance` (useGesture.ts:461-464): guarded against missing
landmarks, returning `1` when either argument is `undefined`. -/
def calculateDistance (msqrt : ℚ → ℚ) : Option Landmark → Option Landmark → ℚ
  | Option.some p1, Option.some p2 => msqrt ((p1.x - p2.x)^2 + (p1.y - p2.y)^2)
  | _, _ => 1

/-- Dynamic effective ROI (useGesture.ts:311-317):
`effRoi = config.roi * Math.min(1.2, Math.max(0.5, wristToMiddle / 0.10))`,
then capped at `1.0`. -/
def effectiveRoi (baseRoi scale : ℚ) : ℚ :=
  let distFactor := scale / (1/10)
  let e := baseRoi * min (12/10) (max (5/10) distFactor)
  if e > 1 then 1 else e

/-- Cursor mapping of the (mirrored) index tip through the ROI square
(useGesture.ts:335-350): mirror x, affine-map the square of side `effRoi`
centred at `(0.5, 0.5)` onto `[0,1]²`, clamp to `[0,1]`. -/
def mapPoint (effRoi : ℚ) (tip : Landmark) : ℚ × ℚ :=
  let rawX := 1 - tip.x
  let rawY := tip.y
  let roiHalf := effRoi / 2
  let roiMinX := 1/2 - roiHalf
  let roiMinY := 1/2 - roiHalf
  let mappedX := (rawX - roiMinX) / effRoi
  let mappedY := (rawY - roiMinY) / effRoi
  (max 0 (min 1 mappedX), max 0 (min 1 mappedY))

/-- Ring-buffer push (useGesture.ts:354-355): append, then `shift()` one
element if the length exceeds `size`. -/
def pushBuffer (size : Nat) (buf : List (ℚ × ℚ)) (p : ℚ × ℚ) : List (ℚ × ℚ) :=
  let b := buf ++ [p]
  if size < b.length then b.tail else b

/-- Arithmetic mean of the buffer (useGesture.ts:357-358).  The buffer is
never empty at the read site (a point was just pushed). -/
def bufferAvg (buf : List (ℚ × ℚ)) : ℚ × ℚ :=
  ((buf.map Prod.fst).sum / (buf.length : ℚ),
   (buf.map Prod.snd).sum / (buf.length : ℚ))

/-- `isPinch = distIndexThumb < PINCH_THRESH` with
`distIndexThumb = calculateDistance(hand[8], hand[4])` and
`PINCH_THRESH = 0.05` (useGesture.ts:370-375). -/
def isPinchOf (msqrt : ℚ → ℚ) (hand : List Landmark) : Bool :=
  decide (calculateDistance msqrt (hand[8]?) (hand[4]?) < 5/100)

/-- `isMiddlePinch = distMiddleThumb < PINCH_THRESH` with
`distMiddleThumb = calculateDistance(hand[12], hand[4])` (useGesture.ts:371-376). -/
def isMiddlePinchOf (msqrt : ℚ → ℚ) (hand : List Landmark) : Bool :=
  decide (calculateDistance msqrt (hand[12]?) (hand[4]?) < 5/100)

/-- `obj && obj[0] ? obj[0].categoryName : dflt` (useGesture.ts:288, 450-451). -/
def categoryHead (l : Option (List Category)) (dflt : String) : String :=
  match l with
  | Option.some cs =>
      match cs.head? with
      | Option.some c => c.categoryName
      | Option.none => dflt
  | Option.none => dflt

/-- The gesture state machine proper (useGesture.ts:373-447), as a pure
function of the persistent machine variables, the pre-step cursor mode,
the (already updated) `cursor.active`, the two pinch booleans and `now`.
Returns (events written this step, final cursor mode, new machine state). -/
def gestureMachine (m : MachineState) (mode0 : GestureMode)
    (cursorActive isPinch isMiddlePinch : Bool) (now : ℚ) :
    Events × GestureMode × MachineState :=
  let branch : Events × GestureMode × MachineState :=
    if isMiddlePinch then
      -- Middle Pinch = Rotate logic (useGesture.ts:381-388)
      if !m.isMiddleDragging then
        ({ noEvents with DRAG_MIDDLE_START := true }, GestureMode.rotate,
         { m with isMiddleDragging := true })
      else
        ({ noEvents with DRAG_MIDDLE_MOVE := true }, GestureMode.rotate, m)
    else
      -- End Rotate (useGesture.ts:391-394)
      let em : Events × MachineState :=
        if m.isMiddleDragging then
          ({ noEvents with DRAG_MIDDLE_END := true }, { m with isMiddleDragging := false })
        else (noEvents, m)
      let ev1 := em.1
      let m1 := em.2
      if isPinch then
        -- Index Pinch = Click / Drag (useGesture.ts:396-409)
        if !m1.isDragging then
          let t := if m1.dragStartTime = 0 then now else m1.dragStartTime
          if now - t > 200 then
            ({ ev1 with DRAG_START := true }, mode0,
             { m1 with dragStartTime := t, isDragging := true })
          else
            (ev1, mode0, { m1 with dragStartTime := t })
        else
          ({ ev1 with DRAG_MOVE := true }, GestureMode.drag, m1)
      else
        -- Release (useGesture.ts:410-440)
        let em2 : Events × MachineState :=
          if m1.isDragging then
            ({ ev1 with DRAG_END := true },
             { m1 with isDragging := false, dragStartTime := 0 })
          else if 0 < m1.dragStartTime then
            -- Short press: clickCount++ then test === 1 (useGesture.ts:421-437)
            if m1.clickCount + 1 = 1 then
              ({ ev1 with CLICK := true },
               { m1 with dragStartTime := 0, clickCount := m1.clickCount + 1,
                         clickTimer := Option.some (now + 300) })
            else
              ({ ev1 with DOUBLE_CLICK := true },
               { m1 with dragStartTime := 0, clickCount := 0,
                         clickTimer := Option.none })
          else (ev1, m1)
        (em2.1, GestureMode.none, em2.2)
  let ev := branch.1
  let mode1 := branch.2.1
  let m2 := branch.2.2
  -- Pointer/idle fallthrough (useGesture.ts:443-447), reading the flags
  -- after the mutations above and the cursor.active updated this call.
  if !isPinch && !isMiddlePinch && !m2.isDragging && !m2.isMiddleDragging then
    (if cursorActive then { ev with POINTER_MOVE := true } else { ev with IDLE := true },
     GestureMode.none, m2)
  else (ev, mode1, m2)

/-- `resetState` (useGesture.ts:243-249): clears only the reactive
`gestureState` fields — cursor.active, gestures, events (to `{IDLE:true}`)
and debug landmarks.  It touches neither `STATE` nor `positionBuffer`. -/
def resetGesture (g : GestureState) : GestureState :=
  { g with cursor := { g.cursor with active := false },
           gestures := [],
           events := idleEvents,
           debugInfo := { g.debugInfo with landmarks := [] } }

/-- Hand filtering & selection (useGesture.ts:252-284): `none` means the
reset-and-return path (no hands / preferred hand absent / index out of
range); `some (i, hand)` is the selected hand and its index. -/
def selectHand (cfg : Config) (res : DetectionResult) : Option (Nat × List Landmark) :=
  if res.landmarks.isEmpty then Option.none
  else
    let idx? : Option Nat :=
      if cfg.hand = HandPreference.Both then Option.some 0
      else res.handednesses.findIdx?
        (fun h => (h.head?.map Category.categoryName) = Option.some cfg.hand.label)
    match idx? with
    | Option.none => Option.none
    | Option.some i => (res.landmarks[i]?).map (fun hand => (i, hand))

/-- The body of `handleResult` after the throwing accesses have succeeded
(useGesture.ts:286-459), with `root = hand[0]` and `handMcp = hand[9]`. -/
def processOut (msqrt : ℚ → ℚ) (cfg : Config) (st : InterpState)
    (res : DetectionResult) (targetHandIndex : Nat) (hand : List Landmark)
    (root handMcp : Landmark) (now : ℚ) : InterpState :=
  let handLabel := categoryHead (res.handednesses[targetHandIndex]?) "Unknown"
  let wristToMiddle := msqrt ((root.x - handMcp.x)^2 + (root.y - handMcp.y)^2)
  let effRoi := effectiveRoi cfg.roi wristToMiddle
  -- Debug info (useGesture.ts:319-327)
  let g1 : GestureState :=
    { st.gesture with debugInfo :=
        { rootPos := (root.x, root.y), handScale := wristToMiddle,
          roi := cfg.roi, effectiveRoi := effRoi, landmarks := hand,
          handedness := handLabel } }
  -- Cursor mapping + smoothing, guarded on hand[8] (useGesture.ts:331-363)
  let cb : GestureState × List (ℚ × ℚ) :=
    match hand[8]? with
    | Option.some indexTip =>
      let mapped := mapPoint effRoi indexTip
      let bufferSize := bufferSizeMap cfg.smoothing
      let buf2 := pushBuffer bufferSize st.positionBuffer mapped
      let avg := bufferAvg buf2
      let c2 := { g1.cursor with x := avg.1 * cfg.innerWidth,
                                 y := avg.2 * cfg.innerHeight, active := true }
      ({ g1 with cursor := c2 }, buf2)
    | Option.none => (g1, st.positionBuffer)
  let g2 := cb.1
  let buf2 := cb.2
  -- Pinch distances (useGesture.ts:366-376); threshold 0.05
  let out := gestureMachine st.machine g2.cursor.mode g2.cursor.active
               (isPinchOf msqrt hand) (isMiddlePinchOf msqrt hand) now
  -- Gesture label passthrough (useGesture.ts:450-452)
  let gestureName := categoryHead (res.gestures[targetHandIndex]?) "None"
  let c3 := { g2.cursor with mode := out.2.1 }
  let g3 := { g2 with cursor := c3, gestures := [gestureName], events := out.1 }
  { gesture := g3, machine := out.2.2, positionBuffer := buf2 }

/-- The per-hand part of `handleResult` (useGesture.ts:286-459).  The first
unguarded property reads are `root.x`/`hand[9].x` at useGesture.ts:299: if
landmark 0 or 9 is missing the JS code throws a `TypeError`, modelled as
`Except.error ()` (no state is mutated before that line). -/
def processHand (msqrt : ℚ → ℚ) (cfg : Config) (st : InterpState)
    (res : DetectionResult) (targetHandIndex : Nat) (hand : List Landmark)
    (now : ℚ) : Except Unit InterpState :=
  match hand[0]?, hand[9]? with
  | Option.some root, Option.some handMcp =>
      Except.ok (processOut msqrt cfg st res targetHandIndex hand root handMcp now)
  | _, _ => Except.error ()

/-- `handleResult` (useGesture.ts:238-459).  A `null` result returns
immediately (`if (!result) return;`) with NO state change; a result with
zero hands or no qualifying hand runs `resetState` and returns. -/
def handleResult (msqrt : ℚ → ℚ) (cfg : Config) (st : InterpState)
    (result : Option DetectionResult) (now : ℚ) : Except Unit InterpState :=
  match result with
  | Option.none => Except.ok st
  | Option.some res =>
    match selectHand cfg res with
    | Option.none => Except.ok { st with gesture := resetGesture st.gesture }
    | Option.some (i, hand) => processHand msqrt cfg st res i hand now

/-- Run the pending `setTimeout` callback (useGesture.ts:424-431) if its
300ms deadline has passed: the callback only does `clickCount = 0`. -/
def fireDueTimer (st : InterpState) (now : ℚ) : InterpState :=
  match st.machine.clickTimer with
  | Option.some deadline =>
      if deadline ≤ now then
        { st with machine := { st.machine with clickCount := 0, clickTimer := Option.none } }
      else st
  | Option.none => st

/-- One scheduling step of the single-threaded event loop: any due timer
callback runs first, then the `result` message handler (`handleResult`). -/
def interpStep (msqrt : ℚ → ℚ) (cfg : Config) (st : InterpState)
    (result : Option DetectionResult) (now : ℚ) : Except Unit InterpState :=
  handleResult msqrt cfg (fireDueTimer st now) result now

/-- The composable-level state around the interpreter that `stopCamera`
and `worker.onmessage` touch (useGesture.ts:33, 40, 52). -/
structure SystemState where
  isCameraActive : Bool
  isBusy : Bool
  interp : InterpState
  deriving DecidableEq

/-- `stopCamera` (useGesture.ts:488-502): stops the loop and tracks
(outside this model), clears the flags and forces `cursor.active = false`.
It does not touch the worker or any in-flight request. -/
def stopCamera (s : SystemState) : SystemState :=
  { s with isCameraActive := false, isBusy := false,
           interp := { s.interp with gesture :=
             { s.interp.gesture with cursor :=
               { s.interp.gesture.cursor with active := false } } } }

/-- The `'result'` branch of `worker.onmessage` (useGesture.ts:184-188):
`handleResult(result); isBusyRef.value = false;` — note there is no
`isCameraActive` guard, and on a thrown `handleResult` the busy flag is
never cleared (the exception skips line 186). -/
def onResultMessage (msqrt : ℚ → ℚ) (cfg : Config) (s : SystemState)
    (result : Option DetectionResult) (now : ℚ) : Except Unit SystemState :=
  match handleResult msqrt cfg s.interp result now with
  | Except.ok st => Except.ok { s with interp := st, isBusy := false }
  | Except.error e => Except.error e

/-! ## Concrete test inputs -/

/-- Landmark at `(x, y)` with `z = 0`. -/
def lm (x y : ℚ) : Landmark := { x := x, y := y, z := 0 }

/-- A full 21-landmark hand with wrist `(0.3, 0.5)` (index 0), middle-MCP
`(0.4, 0.5)` (index 9) — so the hand-scale proxy is exactly `0.1` — and the
given thumb (4), index (8) and middle (12) tips. -/
def mkHand (thumb index middle : Landmark) : List Landmark :=
  [lm (3/10) (1/2), lm (1/2) (1/2), lm (1/2) (1/2), lm (1/2) (1/2),
   thumb,
   lm (1/2) (1/2), lm (1/2) (1/2), lm (1/2) (1/2),
   index,
   lm (4/10) (1/2),
   lm (1/2) (1/2), lm (1/2) (1/2),
   middle,
   lm (1/2) (1/2), lm (1/2) (1/2), lm (1/2) (1/2), lm (1/2) (1/2),
   lm (1/2) (1/2), lm (1/2) (1/2), lm (1/2) (1/2), lm (1/2) (1/2)]

/-- No pinch: both tips 0.2 away from the thumb. -/
def openHand : List Landmark :=
  mkHand (lm (1/2) (1/2)) (lm (1/2) (7/10)) (lm (7/10) (1/2))

/-- Index pinch only: index tip 0.02 from the thumb, middle tip far. -/
def pinchHand : List Landmark :=
  mkHand (lm (1/2) (1/2)) (lm (1/2) (52/100)) (lm (7/10) (1/2))

/-- Middle pinch only. -/
def middlePinchHand : List Landmark :=
  mkHand (lm (1/2) (1/2)) (lm (1/2) (7/10)) (lm (52/100) (1/2))

/-- Both pinches simultaneously. -/
def bothPinchHand : List Landmark :=
  mkHand (lm (1/2) (1/2)) (lm (1/2) (52/100)) (lm (52/100) (1/2))

/-- A one-hand detection result around the given hand. -/
def mkResult (hand : List Landmark) : DetectionResult :=
  { landmarks := [hand],
    handednesses := [[{ categoryName := "Right" }]],
    gestures := [[{ categoryName := "None" }]] }

/-- Default configuration (useGesture.ts:44-49) with a 1920×1080 viewport. -/
def defaultConfig : Config :=
  { hand := HandPreference.Both, smoothing := SmoothingProfile.Balanced,
    roi := 8/10, innerWidth := 1920, innerHeight := 1080 }

/-- Sanity: the index-thumb distance of `pinchHand` is exactly 0.02. -/
theorem pinchHand_dist : calculateDistance sqrtT ((pinchHand)[8]?) ((pinchHand)[4]?) = 1/50 := by
  norm_num [calculateDistance, pinchHand, mkHand, lm, sqrtT]

/-- Sanity: the index-thumb distance of `openHand` is exactly 0.2. -/
theorem openHand_dist : calculateDistance sqrtT ((openHand)[8]?) ((openHand)[4]?) = 1/5 := by
  norm_num [calculateDistance, openHand, mkHand, lm, sqrtT]

/-! ## Basic lemmas about `handleResult` -/

/-- A `null` result is an immediate `return`: no state change at all. -/
theorem handleResult_null (msqrt : ℚ → ℚ) (cfg : Config) (st : InterpState) (now : ℚ) :
    handleResult msqrt cfg st Option.none now = Except.ok st := rfl

/-- Any result on the selection-failure path runs `resetState` and returns. -/
theorem handleResult_reset (msqrt : ℚ → ℚ) (cfg : Config) (st : InterpState)
    (res : DetectionResult) (now : ℚ) (hsel : selectHand cfg res = Option.none) :
    handleResult msqrt cfg st (Option.some res) now =
      Except.ok { st with gesture := resetGesture st.gesture } := by
  simp [handleResult, hsel]

/-- With a selected hand, `handleResult` is `processHand`. -/
theorem handleResult_sel (msqrt : ℚ → ℚ) (cfg : Config) (st : InterpState)
    (res : DetectionResult) (now : ℚ) (i : Nat) (hand : List Landmark)
    (hsel : selectHand cfg res = Option.some (i, hand)) :
    handleResult msqrt cfg st (Option.some res) now =
      processHand msqrt cfg st res i hand now := by
  simp [handleResult, hsel]

/-- A true index pinch requires landmark 8 to be present (a missing tip
gives `calculateDistance = 1 ≥ 0.05`). -/
theorem isPinchOf_some8 (msqrt : ℚ → ℚ) (hand : List Landmark)
    (h : isPinchOf msqrt hand = true) : ∃ tip, hand[8]? = Option.some tip := by
  rcases h8 : hand[8]? with _ | tip
  · exfalso
    rw [isPinchOf, h8] at h
    rcases h4 : hand[4]? with _ | th <;> rw [h4] at h <;>
      simp [calculateDistance] at h <;> norm_num at h
  · exact ⟨tip, rfl⟩

/-! ## Scenario lemmas for the state machine -/

/-- Middle pinch newly true: `DRAG_MIDDLE_START`, mode `rotate`, flag set. -/
theorem gm_middle_start (m : MachineState) (mode0 : GestureMode) (ca ip : Bool) (now : ℚ)
    (hmd : m.isMiddleDragging = false) :
    gestureMachine m mode0 ca ip true now =
      ({ noEvents with DRAG_MIDDLE_START := true }, GestureMode.rotate,
       { m with isMiddleDragging := true }) := by
  simp [gestureMachine, hmd]

/-- Middle pinch held: `DRAG_MIDDLE_MOVE`, mode `rotate`, state unchanged. -/
theorem gm_middle_move (m : MachineState) (mode0 : GestureMode) (ca ip : Bool) (now : ℚ)
    (hmd : m.isMiddleDragging = true) :
    gestureMachine m mode0 ca ip true now =
      ({ noEvents with DRAG_MIDDLE_MOVE := true }, GestureMode.rotate, m) := by
  simp [gestureMachine, hmd]

/-- First frame of an index pinch: the hold timer starts (`dragStartTime := now`),
no event is emitted, and the mode is left unchanged. -/
theorem gm_pinch_first (m : MachineState) (mode0 : GestureMode) (ca : Bool) (now : ℚ)
    (hmd : m.isMiddleDragging = false) (hid : m.isDragging = false)
    (hds : m.dragStartTime = 0) :
    gestureMachine m mode0 ca true false now =
      (noEvents, mode0, { m with dragStartTime := now }) := by
  norm_num [gestureMachine, hmd, hid, hds]

/-- Index pinch held below the threshold (`now - dragStartTime ≤ 200`):
nothing happens (the machine state is literally unchanged). -/
theorem gm_pinch_wait (m : MachineState) (mode0 : GestureMode) (ca : Bool) (now : ℚ)
    (hmd : m.isMiddleDragging = false) (hid : m.isDragging = false)
    (hds : m.dragStartTime ≠ 0) (h200 : now - m.dragStartTime ≤ 200) :
    gestureMachine m mode0 ca true false now = (noEvents, mode0, m) := by
  have h' := not_lt.mpr h200
  cases m
  simp_all [gestureMachine]

/-- Index pinch held strictly past 200ms: `DRAG_START` fires, the drag flag
is set, and the mode is left unchanged (NOT set to `drag`). -/
theorem gm_pinch_fire (m : MachineState) (mode0 : GestureMode) (ca : Bool) (now : ℚ)
    (hmd : m.isMiddleDragging = false) (hid : m.isDragging = false)
    (hds : m.dragStartTime ≠ 0) (h200 : 200 < now - m.dragStartTime) :
    gestureMachine m mode0 ca true false now =
      ({ noEvents with DRAG_START := true }, mode0, { m with isDragging := true }) := by
  simp [gestureMachine, hmd, hid, hds, h200]

/-- Index pinch while already dragging: `DRAG_MOVE`, mode `drag`. -/
theorem gm_pinch_drag (m : MachineState) (mode0 : GestureMode) (ca : Bool) (now : ℚ)
    (hmd : m.isMiddleDragging = false) (hid : m.isDragging = true) :
    gestureMachine m mode0 ca true false now =
      ({ noEvents with DRAG_MOVE := true }, GestureMode.drag, m) := by
  simp [gestureMachine, hmd, hid]

/-- No pinch, no flags, no pending press: `POINTER_MOVE`/`IDLE` only. -/
theorem gm_release_plain (m : MachineState) (mode0 : GestureMode) (ca : Bool) (now : ℚ)
    (hmd : m.isMiddleDragging = false) (hid : m.isDragging = false)
    (hds : ¬ 0 < m.dragStartTime) :
    gestureMachine m mode0 ca false false now =
      ((if ca then { noEvents with POINTER_MOVE := true }
        else { noEvents with IDLE := true }), GestureMode.none, m) := by
  simp [gestureMachine, hmd, hid, hds]

/-- Release of a short press with no earlier pending click: eager `CLICK`
(plus the pointer fallthrough event), click window opened. -/
theorem gm_release_click (m : MachineState) (mode0 : GestureMode) (ca : Bool) (now : ℚ)
    (hmd : m.isMiddleDragging = false) (hid : m.isDragging = false)
    (hds : 0 < m.dragStartTime) (hcc : m.clickCount = 0) :
    gestureMachine m mode0 ca false false now =
      ((if ca then { noEvents with CLICK := true, POINTER_MOVE := true }
        else { noEvents with CLICK := true, IDLE := true }), GestureMode.none,
       { m with dragStartTime := 0, clickCount := 1,
                clickTimer := Option.some (now + 300) }) := by
  simp [gestureMachine, hmd, hid, hds, hcc]

/-- Release of a second short press inside the window: `DOUBLE_CLICK`
(plus the pointer fallthrough event), window cancelled, counter reset. -/
theorem gm_release_double (m : MachineState) (mode0 : GestureMode) (ca : Bool) (now : ℚ)
    (hmd : m.isMiddleDragging = false) (hid : m.isDragging = false)
    (hds : 0 < m.dragStartTime) (hcc : m.clickCount ≠ 0) :
    gestureMachine m mode0 ca false false now =
      ((if ca then { noEvents with DOUBLE_CLICK := true, POINTER_MOVE := true }
        else { noEvents with DOUBLE_CLICK := true, IDLE := true }), GestureMode.none,
       { m with dragStartTime := 0, clickCount := 0, clickTimer := Option.none }) := by
  simp [gestureMachine, hmd, hid, hds, hcc]

/-- Index release while dragging: `DRAG_END` plus the pointer fallthrough
event in the same step. -/
theorem gm_release_dragEnd (m : MachineState) (mode0 : GestureMode) (ca : Bool) (now : ℚ)
    (hmd : m.isMiddleDragging = false) (hid : m.isDragging = true) :
    gestureMachine m mode0 ca false false now =
      ((if ca then { noEvents with DRAG_END := true, POINTER_MOVE := true }
        else { noEvents with DRAG_END := true, IDLE := true }), GestureMode.none,
       { m with isDragging := false, dragStartTime := 0 }) := by
  simp [gestureMachine, hmd, hid]

/-- Middle release on an otherwise quiet step: `DRAG_MIDDLE_END` plus the
pointer fallthrough event co-occur. -/
theorem gm_middle_end (m : MachineState) (mode0 : GestureMode) (ca : Bool) (now : ℚ)
    (hmd : m.isMiddleDragging = true) (hid : m.isDragging = false)
    (hds : ¬ 0 < m.dragStartTime) :
    gestureMachine m mode0 ca false false now =
      ((if ca then { noEvents with DRAG_MIDDLE_END := true, POINTER_MOVE := true }
        else { noEvents with DRAG_MIDDLE_END := true, IDLE := true }), GestureMode.none,
       { m with isMiddleDragging := false }) := by
  simp [gestureMachine, hmd, hid, hds]

/-! ## Characterisation of one full processing step -/

/-- The value of `processOut` when the index tip (landmark 8) is present:
cursor updated from the smoothed buffer, machine stepped with
`cursorActive = true`. -/
def stepOutG (msqrt : ℚ → ℚ) (cfg : Config) (st : InterpState) (res : DetectionResult)
    (i : Nat) (hand : List Landmark) (root mcp tip : Landmark) (now : ℚ) : InterpState :=
  let wrm := msqrt ((root.x - mcp.x)^2 + (root.y - mcp.y)^2)
  let effR := effectiveRoi cfg.roi wrm
  let buf2 := pushBuffer (bufferSizeMap cfg.smoothing) st.positionBuffer (mapPoint effR tip)
  let out := gestureMachine st.machine st.gesture.cursor.mode true
               (isPinchOf msqrt hand) (isMiddlePinchOf msqrt hand) now
  { gesture :=
      { cursor := { x := (bufferAvg buf2).1 * cfg.innerWidth,
                    y := (bufferAvg buf2).2 * cfg.innerHeight,
                    active := true, mode := out.2.1 },
        gestures := [categoryHead (res.gestures[i]?) "None"],
        events := out.1,
        debugInfo := { rootPos := (root.x, root.y), handScale := wrm, roi := cfg.roi,
                       effectiveRoi := effR, landmarks := hand,
                       handedness := categoryHead (res.handednesses[i]?) "Unknown" } },
    machine := out.2.2, positionBuffer := buf2 }

theorem processOut_eq8 (msqrt : ℚ → ℚ) (cfg : Config) (st : InterpState)
    (res : DetectionResult) (i : Nat) (hand : List Landmark) (root mcp tip : Landmark)
    (now : ℚ) (h8 : hand[8]? = Option.some tip) :
    processOut msqrt cfg st res i hand root mcp now =
      stepOutG msqrt cfg st res i hand root mcp tip now := by
  simp [processOut, stepOutG, h8]

/-- The events of any successful hand-processing step come from
`gestureMachine` (for some `cursorActive` flag), as do the final mode and
machine state. -/
theorem processOut_machine_events (msqrt : ℚ → ℚ) (cfg : Config) (st : InterpState)
    (res : DetectionResult) (i : Nat) (hand : List Landmark) (root mcp : Landmark)
    (now : ℚ) :
    ∃ ca, (processOut msqrt cfg st res i hand root mcp now).gesture.events =
        (gestureMachine st.machine st.gesture.cursor.mode ca
          (isPinchOf msqrt hand) (isMiddlePinchOf msqrt hand) now).1 ∧
      (processOut msqrt cfg st res i hand root mcp now).gesture.cursor.mode =
        (gestureMachine st.machine st.gesture.cursor.mode ca
          (isPinchOf msqrt hand) (isMiddlePinchOf msqrt hand) now).2.1 ∧
      (processOut msqrt cfg st res i hand root mcp now).machine =
        (gestureMachine st.machine st.gesture.cursor.mode ca
          (isPinchOf msqrt hand) (isMiddlePinchOf msqrt hand) now).2.2 := by
  rcases h8 : hand[8]? with _ | tip
  · exact ⟨st.gesture.cursor.active, by simp [processOut, h8], by simp [processOut, h8],
      by simp [processOut, h8]⟩
  · exact ⟨true, by simp [processOut, h8], by simp [processOut, h8], by simp [processOut, h8]⟩

/-! ## Projections of `stepOutG` -/

theorem stepOutG_machine (msqrt : ℚ → ℚ) (cfg : Config) (st : InterpState)
    (res : DetectionResult) (i : Nat) (hand : List Landmark) (root mcp tip : Landmark)
    (now : ℚ) :
    (stepOutG msqrt cfg st res i hand root mcp tip now).machine =
      (gestureMachine st.machine st.gesture.cursor.mode true
        (isPinchOf msqrt hand) (isMiddlePinchOf msqrt hand) now).2.2 := rfl

theorem stepOutG_events (msqrt : ℚ → ℚ) (cfg : Config) (st : InterpState)
    (res : DetectionResult) (i : Nat) (hand : List Landmark) (root mcp tip : Landmark)
    (now : ℚ) :
    (stepOutG msqrt cfg st res i hand root mcp tip now).gesture.events =
      (gestureMachine st.machine st.gesture.cursor.mode true
        (isPinchOf msqrt hand) (isMiddlePinchOf msqrt hand) now).1 := rfl

theorem stepOutG_mode (msqrt : ℚ → ℚ) (cfg : Config) (st : InterpState)
    (res : DetectionResult) (i : Nat) (hand : List Landmark) (root mcp tip : Landmark)
    (now : ℚ) :
    (stepOutG msqrt cfg st res i hand root mcp tip now).gesture.cursor.mode =
      (gestureMachine st.machine st.gesture.cursor.mode true
        (isPinchOf msqrt hand) (isMiddlePinchOf msqrt hand) now).2.1 := rfl

theorem stepOutG_buffer (msqrt : ℚ → ℚ) (cfg : Config) (st : InterpState)
    (res : DetectionResult) (i : Nat) (hand : List Landmark) (root mcp tip : Landmark)
    (now : ℚ) :
    (stepOutG msqrt cfg st res i hand root mcp tip now).positionBuffer =
      pushBuffer (bufferSizeMap cfg.smoothing) st.positionBuffer
        (mapPoint (effectiveRoi cfg.roi (msqrt ((root.x - mcp.x)^2 + (root.y - mcp.y)^2))) tip) := rfl

theorem stepOutG_active (msqrt : ℚ → ℚ) (cfg : Config) (st : InterpState)
    (res : DetectionResult) (i : Nat) (hand : List Landmark) (root mcp tip : Landmark)
    (now : ℚ) :
    (stepOutG msqrt cfg st res i hand root mcp tip now).gesture.cursor.active = true := rfl

/-! ## The concrete hands: pinch booleans and one-step equations -/

theorem pinch_ip : isPinchOf sqrtT pinchHand = true := by
  have h8 : pinchHand[8]? = Option.some (lm (1/2) (52/100)) := rfl
  have h4 : pinchHand[4]? = Option.some (lm (1/2) (1/2)) := rfl
  norm_num [isPinchOf, h8, h4, calculateDistance, lm, sqrtT, decide_eq_true_eq]

theorem pinch_imp : isMiddlePinchOf sqrtT pinchHand = false := by
  have h12 : pinchHand[12]? = Option.some (lm (7/10) (1/2)) := rfl
  have h4 : pinchHand[4]? = Option.some (lm (1/2) (1/2)) := rfl
  norm_num [isMiddlePinchOf, h12, h4, calculateDistance, lm, sqrtT, decide_eq_false_iff_not]

theorem open_ip : isPinchOf sqrtT openHand = false := by
  have h8 : openHand[8]? = Option.some (lm (1/2) (7/10)) := rfl
  have h4 : openHand[4]? = Option.some (lm (1/2) (1/2)) := rfl
  norm_num [isPinchOf, h8, h4, calculateDistance, lm, sqrtT, decide_eq_false_iff_not]

theorem open_imp : isMiddlePinchOf sqrtT openHand = false := by
  have h12 : openHand[12]? = Option.some (lm (7/10) (1/2)) := rfl
  have h4 : openHand[4]? = Option.some (lm (1/2) (1/2)) := rfl
  norm_num [isMiddlePinchOf, h12, h4, calculateDistance, lm, sqrtT, decide_eq_false_iff_not]

theorem middle_ip : isPinchOf sqrtT middlePinchHand = false := by
  have h8 : middlePinchHand[8]? = Option.some (lm (1/2) (7/10)) := rfl
  have h4 : middlePinchHand[4]? = Option.some (lm (1/2) (1/2)) := rfl
  norm_num [isPinchOf, h8, h4, calculateDistance, lm, sqrtT, decide_eq_false_iff_not]

theorem middle_imp : isMiddlePinchOf sqrtT middlePinchHand = true := by
  have h12 : middlePinchHand[12]? = Option.some (lm (52/100) (1/2)) := rfl
  have h4 : middlePinchHand[4]? = Option.some (lm (1/2) (1/2)) := rfl
  norm_num [isMiddlePinchOf, h12, h4, calculateDistance, lm, sqrtT, decide_eq_true_eq]

theorem both_ip : isPinchOf sqrtT bothPinchHand = true := by
  have h8 : bothPinchHand[8]? = Option.some (lm (1/2) (52/100)) := rfl
  have h4 : bothPinchHand[4]? = Option.some (lm (1/2) (1/2)) := rfl
  norm_num [isPinchOf, h8, h4, calculateDistance, lm, sqrtT, decide_eq_true_eq]

theorem both_imp : isMiddlePinchOf sqrtT bothPinchHand = true := by
  have h12 : bothPinchHand[12]? = Option.some (lm (52/100) (1/2)) := rfl
  have h4 : bothPinchHand[4]? = Option.some (lm (1/2) (1/2)) := rfl
  norm_num [isMiddlePinchOf, h12, h4, calculateDistance, lm, sqrtT, decide_eq_true_eq]

theorem step_pinch (st : InterpState) (now : ℚ) :
    handleResult sqrtT defaultConfig st (Option.some (mkResult pinchHand)) now =
      Except.ok (stepOutG sqrtT defaultConfig st (mkResult pinchHand) 0 pinchHand
        (lm (3/10) (1/2)) (lm (4/10) (1/2)) (lm (1/2) (52/100)) now) := by
  have hsel : selectHand defaultConfig (mkResult pinchHand) = Option.some (0, pinchHand) := rfl
  have h0 : pinchHand[0]? = Option.some (lm (3/10) (1/2)) := rfl
  have h9 : pinchHand[9]? = Option.some (lm (4/10) (1/2)) := rfl
  have h8 : pinchHand[8]? = Option.some (lm (1/2) (52/100)) := rfl
  rw [handleResult_sel sqrtT defaultConfig st (mkResult pinchHand) now 0 pinchHand hsel]
  simp only [processHand, h0, h9]
  rw [processOut_eq8 sqrtT defaultConfig st (mkResult pinchHand) 0 pinchHand
      (lm (3/10) (1/2)) (lm (4/10) (1/2)) (lm (1/2) (52/100)) now h8]

theorem step_open (st : InterpState) (now : ℚ) :
    handleResult sqrtT defaultConfig st (Option.some (mkResult openHand)) now =
      Except.ok (stepOutG sqrtT defaultConfig st (mkResult openHand) 0 openHand
        (lm (3/10) (1/2)) (lm (4/10) (1/2)) (lm (1/2) (7/10)) now) := by
  have hsel : selectHand defaultConfig (mkResult openHand) = Option.some (0, openHand) := rfl
  have h0 : openHand[0]? = Option.some (lm (3/10) (1/2)) := rfl
  have h9 : openHand[9]? = Option.some (lm (4/10) (1/2)) := rfl
  have h8 : openHand[8]? = Option.some (lm (1/2) (7/10)) := rfl
  rw [handleResult_sel sqrtT defaultConfig st (mkResult openHand) now 0 openHand hsel]
  simp only [processHand, h0, h9]
  rw [processOut_eq8 sqrtT defaultConfig st (mkResult openHand) 0 openHand
      (lm (3/10) (1/2)) (lm (4/10) (1/2)) (lm (1/2) (7/10)) now h8]

theorem step_middle (st : InterpState) (now : ℚ) :
    handleResult sqrtT defaultConfig st (Option.some (mkResult middlePinchHand)) now =
      Except.ok (stepOutG sqrtT defaultConfig st (mkResult middlePinchHand) 0 middlePinchHand
        (lm (3/10) (1/2)) (lm (4/10) (1/2)) (lm (1/2) (7/10)) now) := by
  have hsel : selectHand defaultConfig (mkResult middlePinchHand) =
      Option.some (0, middlePinchHand) := rfl
  have h0 : middlePinchHand[0]? = Option.some (lm (3/10) (1/2)) := rfl
  have h9 : middlePinchHand[9]? = Option.some (lm (4/10) (1/2)) := rfl
  have h8 : middlePinchHand[8]? = Option.some (lm (1/2) (7/10)) := rfl
  rw [handleResult_sel sqrtT defaultConfig st (mkResult middlePinchHand) now 0 middlePinchHand hsel]
  simp only [processHand, h0, h9]
  rw [processOut_eq8 sqrtT defaultConfig st (mkResult middlePinchHand) 0 middlePinchHand
      (lm (3/10) (1/2)) (lm (4/10) (1/2)) (lm (1/2) (7/10)) now h8]

theorem step_both (st : InterpState) (now : ℚ) :
    handleResult sqrtT defaultConfig st (Option.some (mkResult bothPinchHand)) now =
      Except.ok (stepOutG sqrtT defaultConfig st (mkResult bothPinchHand) 0 bothPinchHand
        (lm (3/10) (1/2)) (lm (4/10) (1/2)) (lm (1/2) (52/100)) now) := by
  have hsel : selectHand defaultConfig (mkResult bothPinchHand) =
      Option.some (0, bothPinchHand) := rfl
  have h0 : bothPinchHand[0]? = Option.some (lm (3/10) (1/2)) := rfl
  have h9 : bothPinchHand[9]? = Option.some (lm (4/10) (1/2)) := rfl
  have h8 : bothPinchHand[8]? = Option.some (lm (1/2) (52/100)) := rfl
  rw [handleResult_sel sqrtT defaultConfig st (mkResult bothPinchHand) now 0 bothPinchHand hsel]
  simp only [processHand, h0, h9]
  rw [processOut_eq8 sqrtT defaultConfig st (mkResult bothPinchHand) 0 bothPinchHand
      (lm (3/10) (1/2)) (lm (4/10) (1/2)) (lm (1/2) (52/100)) now h8]

/-! ## Scheduled runs of the interpreter -/

/-- A pending click timer whose deadline has not been reached does nothing. -/
theorem fireDueTimer_id (st : InterpState) (now : ℚ)
    (h : ∀ dl, st.machine.clickTimer = Option.some dl → now < dl) :
    fireDueTimer st now = st := by
  unfold fireDueTimer
  rcases htm : st.machine.clickTimer with _ | dl
  · rfl
  · simp [not_le.mpr (h dl htm)]

/-- One scheduling step on the concrete index-pinch frame. -/
def stepP (st : InterpState) (t : ℚ) : Except Unit InterpState :=
  interpStep sqrtT defaultConfig st (Option.some (mkResult pinchHand)) t

/-- One scheduling step on the concrete open-hand (no pinch) frame. -/
def stepO (st : InterpState) (t : ℚ) : Except Unit InterpState :=
  interpStep sqrtT defaultConfig st (Option.some (mkResult openHand)) t

/-- Run a step function over a list of times, collecting each step's
emitted event set. -/
def traceRun (step : InterpState → ℚ → Except Unit InterpState) :
    InterpState → List ℚ → Except Unit (InterpState × List Events)
  | s, [] => Except.ok (s, [])
  | s, t :: ts =>
    match step s t with
    | Except.error e => Except.error e
    | Except.ok s2 => (traceRun step s2 ts).map (fun p => (p.1, s2.gesture.events :: p.2))

theorem stepP_eq (st : InterpState) (t : ℚ)
    (htm : ∀ dl, st.machine.clickTimer = Option.some dl → t < dl) :
    stepP st t = Except.ok (stepOutG sqrtT defaultConfig st (mkResult pinchHand) 0 pinchHand
      (lm (3/10) (1/2)) (lm (4/10) (1/2)) (lm (1/2) (52/100)) t) := by
  unfold stepP interpStep
  rw [fireDueTimer_id st t htm, step_pinch]

theorem stepO_eq (st : InterpState) (t : ℚ)
    (htm : ∀ dl, st.machine.clickTimer = Option.some dl → t < dl) :
    stepO st t = Except.ok (stepOutG sqrtT defaultConfig st (mkResult openHand) 0 openHand
      (lm (3/10) (1/2)) (lm (4/10) (1/2)) (lm (1/2) (7/10)) t) := by
  unfold stepO interpStep
  rw [fireDueTimer_id st t htm, step_open]

/-- First frame of an index pinch from a quiet machine: the hold timer
starts, nothing is emitted, mode is unchanged. -/
theorem stepP_start (s : InterpState) (t0 : ℚ)
    (hid : s.machine.isDragging = false) (hmd : s.machine.isMiddleDragging = false)
    (hds : s.machine.dragStartTime = 0)
    (htm : ∀ dl, s.machine.clickTimer = Option.some dl → t0 < dl) :
    ∃ s1, stepP s t0 = Except.ok s1 ∧
      s1.machine = { s.machine with dragStartTime := t0 } ∧
      s1.gesture.events = noEvents ∧
      s1.gesture.cursor.mode = s.gesture.cursor.mode ∧
      s1.gesture.cursor.active = true := by
  refine ⟨_, stepP_eq s t0 htm, ?_, ?_, ?_, ?_⟩
  · rw [stepOutG_machine, pinch_ip, pinch_imp,
      gm_pinch_first s.machine s.gesture.cursor.mode true t0 hmd hid hds]
  · rw [stepOutG_events, pinch_ip, pinch_imp,
      gm_pinch_first s.machine s.gesture.cursor.mode true t0 hmd hid hds]
  · rw [stepOutG_mode, pinch_ip, pinch_imp,
      gm_pinch_first s.machine s.gesture.cursor.mode true t0 hmd hid hds]
  · exact stepOutG_active sqrtT defaultConfig s (mkResult pinchHand) 0 pinchHand
      (lm (3/10) (1/2)) (lm (4/10) (1/2)) (lm (1/2) (52/100)) t0

/-- Holding a pinch with all elapsed times at most 200ms: the machine is
literally unchanged, every step emits the empty event set, the mode is
preserved. -/
theorem holdPhase (ts : List ℚ) : ∀ (s : InterpState),
    s.machine.isDragging = false → s.machine.isMiddleDragging = false →
    s.machine.dragStartTime ≠ 0 →
    (∀ t ∈ ts, t - s.machine.dragStartTime ≤ 200) →
    (∀ t ∈ ts, ∀ dl, s.machine.clickTimer = Option.some dl → t < dl) →
    ∃ s2, traceRun stepP s ts = Except.ok (s2, List.replicate ts.length noEvents) ∧
      s2.machine = s.machine ∧ s2.gesture.cursor.mode = s.gesture.cursor.mode := by
  induction ts with
  | nil => exact fun s _ _ _ _ _ => ⟨s, rfl, rfl, rfl⟩
  | cons t ts ih =>
    intro s hid hmd hds hts htm
    have hstep := stepP_eq s t (fun dl h => htm t (by simp) dl h)
    set s1 := stepOutG sqrtT defaultConfig s (mkResult pinchHand) 0 pinchHand
      (lm (3/10) (1/2)) (lm (4/10) (1/2)) (lm (1/2) (52/100)) t with hs1
    have hgm := gm_pinch_wait s.machine s.gesture.cursor.mode true t hmd hid hds
      (hts t (by simp))
    have hm1 : s1.machine = s.machine := by
      rw [hs1, stepOutG_machine, pinch_ip, pinch_imp, hgm]
    have hev : s1.gesture.events = noEvents := by
      rw [hs1, stepOutG_events, pinch_ip, pinch_imp, hgm]
    have hmode : s1.gesture.cursor.mode = s.gesture.cursor.mode := by
      rw [hs1, stepOutG_mode, pinch_ip, pinch_imp, hgm]
    obtain ⟨s2, h2, h2m, h2mode⟩ := ih s1 (by rw [hm1]; exact hid) (by rw [hm1]; exact hmd)
      (by rw [hm1]; exact hds)
      (by rw [hm1]; exact fun u hu => hts u (by simp [hu]))
      (by rw [hm1]; exact fun u hu => htm u (by simp [hu]))
    refine ⟨s2, ?_, by rw [h2m, hm1], by rw [h2mode, hmode]⟩
    show (match stepP s t with
      | Except.error e => Except.error e
      | Except.ok s2 => (traceRun stepP s2 ts).map
          (fun (p : InterpState × List Events) => (p.1, s2.gesture.events :: p.2))) = _
    rw [hstep]
    simp [h2, hev, List.replicate_succ, Except.map]

/-- Once the drag flag is set, every further pinch frame emits exactly
`DRAG_MOVE` and sets mode `drag`; the machine is unchanged. -/
theorem dragPhase (ts : List ℚ) : ∀ (s : InterpState),
    s.machine.isDragging = true → s.machine.isMiddleDragging = false →
    (∀ t ∈ ts, ∀ dl, s.machine.clickTimer = Option.some dl → t < dl) →
    ∃ s2, traceRun stepP s ts =
        Except.ok (s2, List.replicate ts.length { noEvents with DRAG_MOVE := true }) ∧
      s2.machine = s.machine ∧
      s2.gesture.cursor.mode =
        (if ts.isEmpty then s.gesture.cursor.mode else GestureMode.drag) := by
  induction ts with
  | nil => exact fun s _ _ _ => ⟨s, rfl, rfl, rfl⟩
  | cons t ts ih =>
    intro s hid hmd htm
    have hstep := stepP_eq s t (fun dl h => htm t (by simp) dl h)
    set s1 := stepOutG sqrtT defaultConfig s (mkResult pinchHand) 0 pinchHand
      (lm (3/10) (1/2)) (lm (4/10) (1/2)) (lm (1/2) (52/100)) t with hs1
    have hgm := gm_pinch_drag s.machine s.gesture.cursor.mode true t hmd hid
    have hm1 : s1.machine = s.machine := by
      rw [hs1, stepOutG_machine, pinch_ip, pinch_imp, hgm]
    have hev : s1.gesture.events = { noEvents with DRAG_MOVE := true } := by
      rw [hs1, stepOutG_events, pinch_ip, pinch_imp, hgm]
    have hmode : s1.gesture.cursor.mode = GestureMode.drag := by
      rw [hs1, stepOutG_mode, pinch_ip, pinch_imp, hgm]
    obtain ⟨s2, h2, h2m, h2mode⟩ := ih s1 (by rw [hm1]; exact hid) (by rw [hm1]; exact hmd)
      (by rw [hm1]; exact fun u hu => htm u (by simp [hu]))
    refine ⟨s2, ?_, by rw [h2m, hm1], ?_⟩
    · show (match stepP s t with
        | Except.error e => Except.error e
        | Except.ok s2 => (traceRun stepP s2 ts).map
            (fun (p : InterpState × List Events) => (p.1, s2.gesture.events :: p.2))) = _
      rw [hstep]
      simp [h2, hev, List.replicate_succ, Except.map]
    · have hfin : s2.gesture.cursor.mode = GestureMode.drag := by
        simp at h2mode
        rcases ts with _ | ⟨u, us⟩
        · simp at h2mode
          rw [h2mode, hmode]
        · simpa using h2mode
      simp [hfin]

/-- Pinch frame crossing the 200ms threshold: `DRAG_START` fires, the flag
is set, and the cursor mode is left unchanged on that step. -/
theorem stepP_fire (s : InterpState) (t1 : ℚ)
    (hid : s.machine.isDragging = false) (hmd : s.machine.isMiddleDragging = false)
    (hds : s.machine.dragStartTime ≠ 0) (h200 : 200 < t1 - s.machine.dragStartTime)
    (htm : ∀ dl, s.machine.clickTimer = Option.some dl → t1 < dl) :
    ∃ s1, stepP s t1 = Except.ok s1 ∧
      s1.machine = { s.machine with isDragging := true } ∧
      s1.gesture.events = { noEvents with DRAG_START := true } ∧
      s1.gesture.cursor.mode = s.gesture.cursor.mode := by
  refine ⟨_, stepP_eq s t1 htm, ?_, ?_, ?_⟩
  · rw [stepOutG_machine, pinch_ip, pinch_imp,
      gm_pinch_fire s.machine s.gesture.cursor.mode true t1 hmd hid hds h200]
  · rw [stepOutG_events, pinch_ip, pinch_imp,
      gm_pinch_fire s.machine s.gesture.cursor.mode true t1 hmd hid hds h200]
  · rw [stepOutG_mode, pinch_ip, pinch_imp,
      gm_pinch_fire s.machine s.gesture.cursor.mode true t1 hmd hid hds h200]

/-- Open-hand release of a short press with no pending click: eager `CLICK`
(plus `POINTER_MOVE`), window opened, counter at 1. -/
theorem stepO_click (s : InterpState) (r : ℚ)
    (hid : s.machine.isDragging = false) (hmd : s.machine.isMiddleDragging = false)
    (hds : 0 < s.machine.dragStartTime) (hcc : s.machine.clickCount = 0)
    (htm : ∀ dl, s.machine.clickTimer = Option.some dl → r < dl) :
    ∃ s1, stepO s r = Except.ok s1 ∧
      s1.machine =
        { s.machine with
            dragStartTime := 0
            clickCount := 1
            clickTimer := Option.some (r + 300) } ∧
      s1.gesture.events = { noEvents with CLICK := true, POINTER_MOVE := true } ∧
      s1.gesture.cursor.mode = GestureMode.none := by
  refine ⟨_, stepO_eq s r htm, ?_, ?_, ?_⟩
  · rw [stepOutG_machine, open_ip, open_imp,
      gm_release_click s.machine s.gesture.cursor.mode true r hmd hid hds hcc]
  · rw [stepOutG_events, open_ip, open_imp,
      gm_release_click s.machine s.gesture.cursor.mode true r hmd hid hds hcc]
    simp
  · rw [stepOutG_mode, open_ip, open_imp,
      gm_release_click s.machine s.gesture.cursor.mode true r hmd hid hds hcc]

/-- Open-hand release of a second short press inside the window:
`DOUBLE_CLICK` (plus `POINTER_MOVE`), window cancelled, counter reset. -/
theorem stepO_double (s : InterpState) (r : ℚ)
    (hid : s.machine.isDragging = false) (hmd : s.machine.isMiddleDragging = false)
    (hds : 0 < s.machine.dragStartTime) (hcc : s.machine.clickCount ≠ 0)
    (htm : ∀ dl, s.machine.clickTimer = Option.some dl → r < dl) :
    ∃ s1, stepO s r = Except.ok s1 ∧
      s1.machine =
        { s.machine with
            dragStartTime := 0
            clickCount := 0
            clickTimer := Option.none } ∧
      s1.gesture.events = { noEvents with DOUBLE_CLICK := true, POINTER_MOVE := true } ∧
      s1.gesture.cursor.mode = GestureMode.none := by
  refine ⟨_, stepO_eq s r htm, ?_, ?_, ?_⟩
  · rw [stepOutG_machine, open_ip, open_imp,
      gm_release_double s.machine s.gesture.cursor.mode true r hmd hid hds hcc]
  · rw [stepOutG_events, open_ip, open_imp,
      gm_release_double s.machine s.gesture.cursor.mode true r hmd hid hds hcc]
    simp
  · rw [stepOutG_mode, open_ip, open_imp,
      gm_release_double s.machine s.gesture.cursor.mode true r hmd hid hds hcc]

/-! ## Claim C4 — hold-to-drag -/

/-- Helper: a state whose click timer is empty trivially satisfies the
timer-alive condition. -/
theorem noTimer_alive (s : InterpState) (hn : s.machine.clickTimer = Option.none)
    (t : ℚ) : ∀ dl, s.machine.clickTimer = Option.some dl → t < dl := by
  intro dl h
  rw [hn] at h
  exact absurd h (by simp)

def c4St1 : InterpState :=
  stepOutG sqrtT defaultConfig initialState (mkResult pinchHand) 0 pinchHand
    (lm (3/10) (1/2)) (lm (4/10) (1/2)) (lm (1/2) (52/100)) 1000

def c4St2 : InterpState :=
  stepOutG sqrtT defaultConfig c4St1 (mkResult pinchHand) 0 pinchHand
    (lm (3/10) (1/2)) (lm (4/10) (1/2)) (lm (1/2) (52/100)) 1300

/-- C4 (counterexample): starting idle, an index pinch at t=1000 followed by
a held pinch at t=1300 (elapsed 300ms > 200ms) makes the DRAG_START step
fire — but the cursor mode on that very step is still `none`, not `drag`,
contradicting the claim that the machine "transitions to drag ... setting
mode = drag" on the step that emits DRAG_START. -/
theorem C4_counterexample :
    handleResult sqrtT defaultConfig initialState (Option.some (mkResult pinchHand)) 1000 =
      Except.ok c4St1 ∧
    handleResult sqrtT defaultConfig c4St1 (Option.some (mkResult pinchHand)) 1300 =
      Except.ok c4St2 ∧
    c4St2.gesture.events.DRAG_START = true ∧
    c4St2.machine.isDragging = true ∧
    ¬ c4St2.gesture.cursor.mode = GestureMode.drag := by
  have hm1 : c4St1.machine = { initialState.machine with dragStartTime := 1000 } := by
    rw [c4St1, stepOutG_machine, pinch_ip, pinch_imp,
      gm_pinch_first initialState.machine initialState.gesture.cursor.mode true 1000 rfl rfl rfl]
  have hmode1 : c4St1.gesture.cursor.mode = GestureMode.none := by
    rw [c4St1, stepOutG_mode, pinch_ip, pinch_imp,
      gm_pinch_first initialState.machine initialState.gesture.cursor.mode true 1000 rfl rfl rfl]
    exact rfl
  have hds : c4St1.machine.dragStartTime ≠ 0 := by
    rw [hm1]
    norm_num
  have h200 : (200 : ℚ) < 1300 - c4St1.machine.dragStartTime := by
    rw [hm1]
    norm_num
  have hid : c4St1.machine.isDragging = false := by rw [hm1]; exact rfl
  have hmd : c4St1.machine.isMiddleDragging = false := by rw [hm1]; exact rfl
  have hgm := gm_pinch_fire c4St1.machine c4St1.gesture.cursor.mode true 1300 hmd hid hds h200
  refine ⟨step_pinch initialState 1000, step_pinch c4St1 1300, ?_, ?_, ?_⟩
  · rw [c4St2, stepOutG_events, pinch_ip, pinch_imp, hgm]
  · rw [c4St2, stepOutG_machine, pinch_ip, pinch_imp, hgm]
  · rw [c4St2, stepOutG_mode, pinch_ip, pinch_imp, hgm, hmode1]
    simp

/-- C4 (amended): in a run of consecutive index-pinch frames from the idle
interpreter (middle pinch false throughout, drag flag initially unset), the
hold timer starts on the first frame (`dragStartTime := t0`); every frame
with elapsed time ≤ 200ms emits no event and keeps mode `none`; the first
frame with elapsed time strictly greater than 200ms emits exactly one
`DRAG_START` and sets the drag flag, but leaves mode `none` on that step;
every subsequent held frame emits `DRAG_MOVE` and sets mode `drag`. -/
theorem C4_amended (t0 t1 : ℚ) (ts1 ts2 : List ℚ)
    (h0 : t0 ≠ 0) (hts1 : ∀ t ∈ ts1, t - t0 ≤ 200) (ht1 : 200 < t1 - t0) :
    ∃ sA sB sC,
      traceRun stepP initialState (t0 :: ts1) =
        Except.ok (sA, List.replicate (ts1.length + 1) noEvents) ∧
      sA.machine.isDragging = false ∧ sA.machine.dragStartTime = t0 ∧
      sA.gesture.cursor.mode = GestureMode.none ∧
      stepP sA t1 = Except.ok sB ∧
      sB.gesture.events = { noEvents with DRAG_START := true } ∧
      sB.machine.isDragging = true ∧
      sB.gesture.cursor.mode = GestureMode.none ∧
      traceRun stepP sB ts2 =
        Except.ok (sC, List.replicate ts2.length { noEvents with DRAG_MOVE := true }) ∧
      sC.gesture.cursor.mode =
        (if ts2.isEmpty then GestureMode.none else GestureMode.drag) := by
  obtain ⟨s1, hstep0, hm1, hev1, hmode1, -⟩ :=
    stepP_start initialState t0 rfl rfl rfl (noTimer_alive initialState rfl t0)
  have htm1 : s1.machine.clickTimer = Option.none := by rw [hm1]; exact rfl
  obtain ⟨sA, htr1, hAm, hAmode⟩ := holdPhase ts1 s1
    (by rw [hm1]; exact rfl) (by rw [hm1]; exact rfl)
    (by rw [hm1]; exact h0)
    (by rw [hm1]; exact fun t ht => hts1 t ht)
    (fun t _ => noTimer_alive s1 htm1 t)
  have hAm' : sA.machine = { initialState.machine with dragStartTime := t0 } := by
    rw [hAm, hm1]
  have hAmode' : sA.gesture.cursor.mode = GestureMode.none := by
    rw [hAmode, hmode1]
    exact rfl
  obtain ⟨sB, hstepB, hBm, hBev, hBmode⟩ := stepP_fire sA t1
    (by rw [hAm']; exact rfl) (by rw [hAm']; exact rfl)
    (by rw [hAm']; exact h0)
    (by rw [hAm']; exact ht1)
    (noTimer_alive sA (by rw [hAm']; exact rfl) t1)
  have hBmode' : sB.gesture.cursor.mode = GestureMode.none := by
    rw [hBmode, hAmode']
  have hBtm : sB.machine.clickTimer = Option.none := by rw [hBm, hAm']; exact rfl
  obtain ⟨sC, htr2, hCm, hCmode⟩ := dragPhase ts2 sB
    (by rw [hBm]) (by rw [hBm, hAm']; exact rfl)
    (fun t _ => noTimer_alive sB hBtm t)
  refine ⟨sA, sB, sC, ?_, by rw [hAm']; exact rfl, by rw [hAm'], hAmode', hstepB, hBev,
    by rw [hBm], hBmode', htr2, by rw [hCmode, hBmode']⟩
  show (match stepP initialState t0 with
    | Except.error e => Except.error e
    | Except.ok s2 => (traceRun stepP s2 ts1).map
        (fun (p : InterpState × List Events) => (p.1, s2.gesture.events :: p.2))) = _
  rw [hstep0]
  simp [htr1, hev1, List.replicate_succ, Except.map]

/-- C4 witness: the amended run at t0=1000, a held frame at 1100, the
threshold-crossing frame at 1300, one drag frame at 1400. -/
theorem C4_witness : ∃ sA sB sC,
    traceRun stepP initialState (1000 :: [1100]) =
      Except.ok (sA, List.replicate 2 noEvents) ∧
    sA.machine.isDragging = false ∧ sA.machine.dragStartTime = 1000 ∧
    sA.gesture.cursor.mode = GestureMode.none ∧
    stepP sA 1300 = Except.ok sB ∧
    sB.gesture.events = { noEvents with DRAG_START := true } ∧
    sB.machine.isDragging = true ∧
    sB.gesture.cursor.mode = GestureMode.none ∧
    traceRun stepP sB [1400] =
      Except.ok (sC, List.replicate 1 { noEvents with DRAG_MOVE := true }) ∧
    sC.gesture.cursor.mode = GestureMode.drag :=
  C4_amended 1000 1300 [1100] [1400] (by norm_num) (by norm_num) (by norm_num)

/-! ## Claim C5 — eager click and double click -/

def c5St1 : InterpState :=
  stepOutG sqrtT defaultConfig initialState (mkResult pinchHand) 0 pinchHand
    (lm (3/10) (1/2)) (lm (4/10) (1/2)) (lm (1/2) (52/100)) 1000

def c5St2 : InterpState :=
  stepOutG sqrtT defaultConfig c5St1 (mkResult openHand) 0 openHand
    (lm (3/10) (1/2)) (lm (4/10) (1/2)) (lm (1/2) (7/10)) 1100

/-- C5 (counterexample): on the release step of a short press the emitted
event set is `{CLICK, POINTER_MOVE}` — the release steps carry a
`POINTER_MOVE` besides the click events, so the emitted event sequence
across the two release steps is not exactly `[CLICK, DOUBLE_CLICK]`. -/
theorem C5_counterexample :
    handleResult sqrtT defaultConfig initialState (Option.some (mkResult pinchHand)) 1000 =
      Except.ok c5St1 ∧
    handleResult sqrtT defaultConfig c5St1 (Option.some (mkResult openHand)) 1100 =
      Except.ok c5St2 ∧
    c5St2.gesture.events.CLICK = true ∧
    c5St2.gesture.events.POINTER_MOVE = true := by
  have hm1 : c5St1.machine = { initialState.machine with dragStartTime := 1000 } := by
    rw [c5St1, stepOutG_machine, pinch_ip, pinch_imp,
      gm_pinch_first initialState.machine initialState.gesture.cursor.mode true 1000 rfl rfl rfl]
  have hid : c5St1.machine.isDragging = false := by rw [hm1]; exact rfl
  have hmd : c5St1.machine.isMiddleDragging = false := by rw [hm1]; exact rfl
  have hds : 0 < c5St1.machine.dragStartTime := by
    rw [hm1]
    norm_num
  have hcc : c5St1.machine.clickCount = 0 := by rw [hm1]; exact rfl
  have hgm := gm_release_click c5St1.machine c5St1.gesture.cursor.mode true 1100 hmd hid hds hcc
  have hev : c5St2.gesture.events = { noEvents with CLICK := true, POINTER_MOVE := true } := by
    rw [c5St2, stepOutG_events, open_ip, open_imp, hgm]
    simp
  exact ⟨step_pinch initialState 1000, step_open c5St1 1100,
    by rw [hev], by rw [hev]⟩

/-- C5 (amended): two index-pinch short presses (each hold phase ≤ 200ms)
whose releases fall within the same 300ms window yield the click-event
sequence CLICK then DOUBLE_CLICK: the first release emits `CLICK` (and not
`DOUBLE_CLICK`), opens the 300ms window and sets the counter to 1; the
second release cancels the window, resets the counter, and emits
`DOUBLE_CLICK` (and not a second `CLICK`).  Each release step additionally
carries `POINTER_MOVE`, since afterwards no pinch or drag flag is active
and the cursor is active. -/
theorem C5_amended (t0 r1 t2 r3 : ℚ) (ts1 ts2 : List ℚ)
    (h0 : 0 < t0) (hts1 : ∀ t ∈ ts1, t - t0 ≤ 200)
    (h2 : 0 < t2) (hts2 : ∀ t ∈ ts2, t - t2 ≤ 200)
    (h2win : t2 < r1 + 300) (hts2win : ∀ t ∈ ts2, t < r1 + 300)
    (hr3 : r3 < r1 + 300) :
    ∃ sA sB sC sD,
      traceRun stepP initialState (t0 :: ts1) =
        Except.ok (sA, List.replicate (ts1.length + 1) noEvents) ∧
      stepO sA r1 = Except.ok sB ∧
      sB.gesture.events = { noEvents with CLICK := true, POINTER_MOVE := true } ∧
      sB.machine.clickCount = 1 ∧
      sB.machine.clickTimer = Option.some (r1 + 300) ∧
      traceRun stepP sB (t2 :: ts2) =
        Except.ok (sC, List.replicate (ts2.length + 1) noEvents) ∧
      stepO sC r3 = Except.ok sD ∧
      sD.gesture.events = { noEvents with DOUBLE_CLICK := true, POINTER_MOVE := true } ∧
      sD.machine.clickCount = 0 ∧ sD.machine.clickTimer = Option.none := by
  -- first press
  obtain ⟨s1, hstep0, hm1, hev1, hmode1, -⟩ :=
    stepP_start initialState t0 rfl rfl rfl (noTimer_alive initialState rfl t0)
  have htm1 : s1.machine.clickTimer = Option.none := by rw [hm1]; exact rfl
  obtain ⟨sA, htr1, hAm, hAmode⟩ := holdPhase ts1 s1
    (by rw [hm1]; exact rfl) (by rw [hm1]; exact rfl)
    (by rw [hm1]; exact ne_of_gt h0)
    (by rw [hm1]; exact fun t ht => hts1 t ht)
    (fun t _ => noTimer_alive s1 htm1 t)
  have hAm' : sA.machine = { initialState.machine with dragStartTime := t0 } := by
    rw [hAm, hm1]
  -- first release: CLICK
  obtain ⟨sB, hstepB, hBm, hBev, hBmode⟩ := stepO_click sA r1
    (by rw [hAm']; exact rfl) (by rw [hAm']; exact rfl)
    (by rw [hAm']; exact h0)
    (by rw [hAm']; exact rfl)
    (noTimer_alive sA (by rw [hAm']; exact rfl) r1)
  have hBtm : sB.machine.clickTimer = Option.some (r1 + 300) := by rw [hBm]
  have hBcc : sB.machine.clickCount = 1 := by rw [hBm]
  have hBalive : ∀ (t : ℚ), t < r1 + 300 →
      ∀ dl, sB.machine.clickTimer = Option.some dl → t < dl := by
    intro t ht dl h
    rw [hBtm] at h
    injection h with h'
    rw [← h']
    exact ht
  -- second press
  obtain ⟨s3, hstep3, hm3, hev3, hmode3, -⟩ := stepP_start sB t2
    (by rw [hBm, hAm']; exact rfl) (by rw [hBm, hAm']; exact rfl)
    (by rw [hBm])
    (hBalive t2 h2win)
  have htm3 : s3.machine.clickTimer = Option.some (r1 + 300) := by
    rw [hm3, hBtm]
  obtain ⟨sC, htr3, hCm, hCmode⟩ := holdPhase ts2 s3
    (by rw [hm3, hBm, hAm']; exact rfl) (by rw [hm3, hBm, hAm']; exact rfl)
    (by rw [hm3]; exact ne_of_gt h2)
    (by rw [hm3]; exact fun t ht => hts2 t ht)
    (by intro t ht dl h
        rw [htm3] at h
        injection h with h'
        rw [← h']
        exact hts2win t ht)
  have hCm' : sC.machine = { sB.machine with dragStartTime := t2 } := by
    rw [hCm, hm3]
  have hCtm : sC.machine.clickTimer = Option.some (r1 + 300) := by
    rw [hCm', hBtm]
  -- second release: DOUBLE_CLICK
  obtain ⟨sD, hstepD, hDm, hDev, hDmode⟩ := stepO_double sC r3
    (by rw [hCm', hBm, hAm']; exact rfl) (by rw [hCm', hBm, hAm']; exact rfl)
    (by rw [hCm']; exact h2)
    (by rw [hCm', hBcc]; norm_num)
    (by intro dl h
        rw [hCtm] at h
        injection h with h'
        rw [← h']
        exact hr3)
  refine ⟨sA, sB, sC, sD, ?_, hstepB, hBev, hBcc, hBtm, ?_, hstepD, hDev,
    by rw [hDm], by rw [hDm]⟩
  · show (match stepP initialState t0 with
      | Except.error e => Except.error e
      | Except.ok s2 => (traceRun stepP s2 ts1).map
          (fun (p : InterpState × List Events) => (p.1, s2.gesture.events :: p.2))) = _
    rw [hstep0]
    simp [htr1, hev1, List.replicate_succ, Except.map]
  · show (match stepP sB t2 with
      | Except.error e => Except.error e
      | Except.ok s2 => (traceRun stepP s2 ts2).map
          (fun (p : InterpState × List Events) => (p.1, s2.gesture.events :: p.2))) = _
    rw [hstep3]
    simp [htr3, hev3, List.replicate_succ, Except.map]

/-- C5 witness: single-frame presses at t=1000 and t=1200, releases at
t=1100 and t=1300 (releases 200ms apart, within the 300ms window). -/
theorem C5_witness : ∃ sA sB sC sD,
    traceRun stepP initialState (1000 :: []) = Except.ok (sA, List.replicate 1 noEvents) ∧
    stepO sA 1100 = Except.ok sB ∧
    sB.gesture.events = { noEvents with CLICK := true, POINTER_MOVE := true } ∧
    sB.machine.clickCount = 1 ∧
    sB.machine.clickTimer = Option.some (1100 + 300) ∧
    traceRun stepP sB (1200 :: []) = Except.ok (sC, List.replicate 1 noEvents) ∧
    stepO sC 1300 = Except.ok sD ∧
    sD.gesture.events = { noEvents with DOUBLE_CLICK := true, POINTER_MOVE := true } ∧
    sD.machine.clickCount = 0 ∧ sD.machine.clickTimer = Option.none :=
  C5_amended 1000 1100 1200 1300 [] [] (by norm_num) (by simp) (by norm_num) (by simp)
    (by norm_num) (by simp) (by norm_num)

/-! ## Claim C1 — null / zero-hand handling -/

def c1Bad : InterpState :=
  stepOutG sqrtT defaultConfig initialState (mkResult openHand) 0 openHand
    (lm (3/10) (1/2)) (lm (4/10) (1/2)) (lm (1/2) (7/10)) 1000

/-- C1 (counterexample): after one open-hand frame the cursor is active;
a subsequent `null` detection result leaves the state completely
unchanged (`if (!result) return;`), so the interpreter does NOT reset to
idle on a null result: `cursor.active` stays `true`, `events` is not
`{IDLE: true}`, and the debug landmarks are not cleared. -/
theorem C1_counterexample :
    handleResult sqrtT defaultConfig initialState (Option.some (mkResult openHand)) 1000 =
      Except.ok c1Bad ∧
    handleResult sqrtT defaultConfig c1Bad Option.none 1100 = Except.ok c1Bad ∧
    c1Bad.gesture.cursor.active = true ∧
    c1Bad.gesture.events ≠ idleEvents ∧
    c1Bad.gesture.debugInfo.landmarks ≠ [] := by
  have hgm := gm_release_plain initialState.machine initialState.gesture.cursor.mode true 1000
    rfl rfl (by norm_num [initialState, initialMachine])
  have hev : c1Bad.gesture.events = { noEvents with POINTER_MOVE := true } := by
    rw [c1Bad, stepOutG_events, open_ip, open_imp, hgm]
    simp
  refine ⟨step_open initialState 1000, rfl, rfl, ?_, ?_⟩
  · rw [hev]
    decide
  · show openHand ≠ []
    simp [openHand, mkHand]

/-- Results with an empty hand list always take the reset path. -/
theorem selectHand_empty (cfg : Config) (res : DetectionResult)
    (h : res.landmarks = []) : selectHand cfg res = Option.none := by
  simp [selectHand, h]

/-- C1 (amended): a result with zero hands resets the gesture state to idle
(`cursor.active = false`, `events = {IDLE: true}`, debug landmarks
cleared); a `null` result instead returns immediately and leaves the
previous `GestureState` (including `cursor.active` and `events`) entirely
unchanged. -/
theorem C1_amended (msqrt : ℚ → ℚ) (cfg : Config) (st : InterpState) (now : ℚ) :
    handleResult msqrt cfg st Option.none now = Except.ok st ∧
    ∀ res : DetectionResult, res.landmarks = [] →
      handleResult msqrt cfg st (Option.some res) now =
        Except.ok { st with gesture := resetGesture st.gesture } ∧
      (resetGesture st.gesture).cursor.active = false ∧
      (resetGesture st.gesture).events = idleEvents ∧
      (resetGesture st.gesture).debugInfo.landmarks = [] := by
  refine ⟨rfl, fun res h => ⟨?_, rfl, rfl, rfl⟩⟩
  exact handleResult_reset msqrt cfg st res now (selectHand_empty cfg res h)

/-- C1 witness: the amended behaviour at the initial state and the empty
result `⟨[], [], []⟩`. -/
theorem C1_witness :
    handleResult sqrtT defaultConfig initialState Option.none 1000 =
      Except.ok initialState ∧
    (handleResult sqrtT defaultConfig initialState
        (Option.some { landmarks := [], handednesses := [], gestures := [] }) 1000 =
      Except.ok { initialState with gesture := resetGesture initialState.gesture } ∧
      (resetGesture initialState.gesture).cursor.active = false ∧
      (resetGesture initialState.gesture).events = idleEvents ∧
      (resetGesture initialState.gesture).debugInfo.landmarks = []) :=
  ⟨(C1_amended sqrtT defaultConfig initialState 1000).1,
   (C1_amended sqrtT defaultConfig initialState 1000).2
     { landmarks := [], handednesses := [], gestures := [] } rfl⟩

/-! ## Claim C2 — malformed hands throw -/

/-- A detection result containing one hand whose landmark array is empty
(so every expected index, including 0 and 9, is missing). -/
def malformedResult : DetectionResult :=
  { landmarks := [[]],
    handednesses := [[{ categoryName := "Right" }]],
    gestures := [] }

/-- C2: contrary to the spec, `handleResult` THROWS on a hand with missing
landmark indices: the selected hand `[]` reaches the unguarded
`root.x` / `hand[9].x` reads (useGesture.ts:299) and raises a `TypeError`
(modelled as `Except.error ()`) instead of treating the hand as "no
qualifying hand". -/
theorem C2_throws :
    handleResult sqrtT defaultConfig initialState (Option.some malformedResult) 1000 =
      Except.error () := rfl

/-- General form: whenever the selected hand misses landmark 0 or 9, the
step throws, for every configuration and state. -/
theorem C2_throws_general (msqrt : ℚ → ℚ) (cfg : Config) (st : InterpState)
    (res : DetectionResult) (now : ℚ) (i : Nat) (hand : List Landmark)
    (hsel : selectHand cfg res = Option.some (i, hand))
    (h : hand[0]? = Option.none ∨ hand[9]? = Option.none) :
    handleResult msqrt cfg st (Option.some res) now = Except.error () := by
  rw [handleResult_sel msqrt cfg st res now i hand hsel]
  unfold processHand
  rcases h with h | h
  · simp [h]
  · rcases h0 : hand[0]? with _ | r <;> simp [h, h0]

/-- General one-step equation: with a selected hand that has landmarks 0,
9 and 8, a call is exactly a `stepOutG` update. -/
theorem handleResult_step (msqrt : ℚ → ℚ) (cfg : Config) (st : InterpState)
    (res : DetectionResult) (now : ℚ) (i : Nat) (hand : List Landmark)
    (root mcp tip : Landmark)
    (hsel : selectHand cfg res = Option.some (i, hand))
    (h0 : hand[0]? = Option.some root) (h9 : hand[9]? = Option.some mcp)
    (h8 : hand[8]? = Option.some tip) :
    handleResult msqrt cfg st (Option.some res) now =
      Except.ok (stepOutG msqrt cfg st res i hand root mcp tip now) := by
  rw [handleResult_sel msqrt cfg st res now i hand hsel]
  simp only [processHand, h0, h9]
  rw [processOut_eq8 msqrt cfg st res i hand root mcp tip now h8]

/-! ## Claim C3 — reset does not clear the interaction state -/

/-- A zero-hand result, as delivered after hand loss. -/
def emptyResult : DetectionResult :=
  { landmarks := [], handednesses := [], gestures := [] }

/-- `pushBuffer` never empties a buffer (for the sizes in use, ≥ 1). -/
theorem pushBuffer_ne_nil (size : Nat) (buf : List (ℚ × ℚ)) (p : ℚ × ℚ)
    (h : 1 ≤ size) : pushBuffer size buf p ≠ [] := by
  unfold pushBuffer
  rcases buf with _ | ⟨x, xs⟩
  · dsimp only
    rw [if_neg (by simp; omega)]
    simp
  · dsimp only
    split <;> simp

theorem bufferSizeMap_pos (sp : SmoothingProfile) : 1 ≤ bufferSizeMap sp := by
  cases sp <;> simp [bufferSizeMap]

def c3St1 : InterpState :=
  stepOutG sqrtT defaultConfig initialState (mkResult pinchHand) 0 pinchHand
    (lm (3/10) (1/2)) (lm (4/10) (1/2)) (lm (1/2) (52/100)) 1000

def c3St2 : InterpState :=
  stepOutG sqrtT defaultConfig c3St1 (mkResult pinchHand) 0 pinchHand
    (lm (3/10) (1/2)) (lm (4/10) (1/2)) (lm (1/2) (52/100)) 1300

def c3St3 : InterpState := { c3St2 with gesture := resetGesture c3St2.gesture }

/-- C3 (counterexample): drive the machine into an active drag (pinch at
t=1000, held at t=1300), then lose the hand (zero-hand result at t=1400).
The reset path clears only the `GestureState`: afterwards the drag flag is
STILL set and the smoothing buffer is STILL non-empty — `resetState`
(useGesture.ts:243-249) touches neither `STATE` nor `positionBuffer`. -/
theorem C3_counterexample :
    handleResult sqrtT defaultConfig initialState (Option.some (mkResult pinchHand)) 1000 =
      Except.ok c3St1 ∧
    handleResult sqrtT defaultConfig c3St1 (Option.some (mkResult pinchHand)) 1300 =
      Except.ok c3St2 ∧
    handleResult sqrtT defaultConfig c3St2 (Option.some emptyResult) 1400 =
      Except.ok c3St3 ∧
    c3St3.machine.isDragging = true ∧
    c3St3.positionBuffer ≠ [] ∧
    c3St3.gesture.cursor.active = false := by
  have hm1 : c3St1.machine = { initialState.machine with dragStartTime := 1000 } := by
    rw [c3St1, stepOutG_machine, pinch_ip, pinch_imp,
      gm_pinch_first initialState.machine initialState.gesture.cursor.mode true 1000 rfl rfl rfl]
  have hgm := gm_pinch_fire c3St1.machine c3St1.gesture.cursor.mode true 1300
    (by rw [hm1]; exact rfl) (by rw [hm1]; exact rfl)
    (by rw [hm1]; norm_num) (by rw [hm1]; norm_num)
  have hm2 : c3St2.machine = { c3St1.machine with isDragging := true } := by
    rw [c3St2, stepOutG_machine, pinch_ip, pinch_imp, hgm]
  refine ⟨step_pinch initialState 1000, step_pinch c3St1 1300,
    handleResult_reset sqrtT defaultConfig c3St2 emptyResult 1400
      (selectHand_empty defaultConfig emptyResult rfl), ?_, ?_, rfl⟩
  · show c3St2.machine.isDragging = true
    rw [hm2]
  · show c3St2.positionBuffer ≠ []
    rw [c3St2, stepOutG_buffer]
    exact pushBuffer_ne_nil _ _ _ (bufferSizeMap_pos defaultConfig.smoothing)

/-- C3 (amended): on hand loss only the `GestureState` is reset; the
persistent `InteractionState` is NOT reset — the drag flags and the whole
machine state survive unchanged, and the smoothing buffer is not cleared
(on the reset path it is left as is; on ordinary qualifying-hand calls it
is pushed to, never cleared, so smoothing persists across frames). -/
theorem C3_amended (msqrt : ℚ → ℚ) (cfg : Config) (st : InterpState) (now : ℚ) :
    (∀ res, selectHand cfg res = Option.none →
      handleResult msqrt cfg st (Option.some res) now =
        Except.ok { st with gesture := resetGesture st.gesture } ∧
      ({ st with gesture := resetGesture st.gesture } : InterpState).machine =
        st.machine ∧
      ({ st with gesture := resetGesture st.gesture } : InterpState).positionBuffer =
        st.positionBuffer) ∧
    (∀ res i hand root mcp tip st2,
      selectHand cfg res = Option.some (i, hand) →
      hand[0]? = Option.some root → hand[9]? = Option.some mcp →
      hand[8]? = Option.some tip →
      handleResult msqrt cfg st (Option.some res) now = Except.ok st2 →
      st2.positionBuffer =
        pushBuffer (bufferSizeMap cfg.smoothing) st.positionBuffer
          (mapPoint (effectiveRoi cfg.roi
            (msqrt ((root.x - mcp.x)^2 + (root.y - mcp.y)^2))) tip) ∧
      st2.positionBuffer ≠ [] ∧
      st2.machine.isDragging =
        (gestureMachine st.machine st.gesture.cursor.mode true
          (isPinchOf msqrt hand) (isMiddlePinchOf msqrt hand) now).2.2.isDragging) := by
  constructor
  · intro res hsel
    exact ⟨handleResult_reset msqrt cfg st res now hsel, rfl, rfl⟩
  · intro res i hand root mcp tip st2 hsel h0 h9 h8 hrun
    rw [handleResult_step msqrt cfg st res now i hand root mcp tip hsel h0 h9 h8] at hrun
    injection hrun with hrun
    subst hrun
    refine ⟨stepOutG_buffer msqrt cfg st res i hand root mcp tip now, ?_, ?_⟩
    · rw [stepOutG_buffer]
      exact pushBuffer_ne_nil _ _ _ (bufferSizeMap_pos cfg.smoothing)
    · rw [stepOutG_machine]

/-- C3 witness: the reset conjunct at the empty result and the ordinary
conjunct at an open-hand frame, from the initial state. -/
theorem C3_witness :
    (handleResult sqrtT defaultConfig initialState (Option.some emptyResult) 1000 =
      Except.ok { initialState with gesture := resetGesture initialState.gesture } ∧
     ({ initialState with gesture := resetGesture initialState.gesture } : InterpState).machine =
       initialState.machine ∧
     ({ initialState with gesture := resetGesture initialState.gesture } : InterpState).positionBuffer =
       initialState.positionBuffer) ∧
    (c1Bad.positionBuffer =
      pushBuffer (bufferSizeMap defaultConfig.smoothing) initialState.positionBuffer
        (mapPoint (effectiveRoi defaultConfig.roi
          (sqrtT (((lm (3/10) (1/2)).x - (lm (4/10) (1/2)).x)^2 +
                  ((lm (3/10) (1/2)).y - (lm (4/10) (1/2)).y)^2))) (lm (1/2) (7/10))) ∧
     c1Bad.positionBuffer ≠ [] ∧
     c1Bad.machine.isDragging =
       (gestureMachine initialState.machine initialState.gesture.cursor.mode true
         (isPinchOf sqrtT openHand) (isMiddlePinchOf sqrtT openHand) 1000).2.2.isDragging) :=
  ⟨(C3_amended sqrtT defaultConfig initialState 1000).1 emptyResult
     (selectHand_empty defaultConfig emptyResult rfl),
   (C3_amended sqrtT defaultConfig initialState 1000).2 (mkResult openHand) 0 openHand
     (lm (3/10) (1/2)) (lm (4/10) (1/2)) (lm (1/2) (7/10)) c1Bad rfl rfl rfl rfl
     (step_open initialState 1000)⟩

/-! ## Claim C6 — middle pinch takes precedence -/

/-- C6: whenever both pinch distances are under the 0.05 threshold, the
middle pinch wins: the step sets mode `rotate`, emits exactly the
middle-drag event for the current flag state (`DRAG_MIDDLE_START` if the
flag was clear, else `DRAG_MIDDLE_MOVE`), emits none of
`DRAG_START`/`DRAG_MOVE`/`DRAG_END`, and leaves the index-drag flag and
hold timer (`dragStartTime`) untouched. -/
theorem C6_theorem (msqrt : ℚ → ℚ) (cfg : Config) (st : InterpState)
    (res : DetectionResult) (now : ℚ) (i : Nat) (hand : List Landmark)
    (hsel : selectHand cfg res = Option.some (i, hand))
    (h0ex : ∃ r, hand[0]? = Option.some r)
    (h9ex : ∃ m9, hand[9]? = Option.some m9)
    (hip : isPinchOf msqrt hand = true)
    (himp : isMiddlePinchOf msqrt hand = true) :
    ∃ st2, handleResult msqrt cfg st (Option.some res) now = Except.ok st2 ∧
      st2.gesture.cursor.mode = GestureMode.rotate ∧
      (st.machine.isMiddleDragging = false →
        st2.gesture.events = { noEvents with DRAG_MIDDLE_START := true }) ∧
      (st.machine.isMiddleDragging = true →
        st2.gesture.events = { noEvents with DRAG_MIDDLE_MOVE := true }) ∧
      st2.gesture.events.DRAG_START = false ∧
      st2.gesture.events.DRAG_MOVE = false ∧
      st2.gesture.events.DRAG_END = false ∧
      st2.machine.isDragging = st.machine.isDragging ∧
      st2.machine.dragStartTime = st.machine.dragStartTime := by
  obtain ⟨r, h0⟩ := h0ex
  obtain ⟨m9, h9⟩ := h9ex
  obtain ⟨tip, h8⟩ := isPinchOf_some8 msqrt hand hip
  have hstep := handleResult_step msqrt cfg st res now i hand r m9 tip hsel h0 h9 h8
  cases hmd : st.machine.isMiddleDragging with
  | false =>
    have hgm := gm_middle_start st.machine st.gesture.cursor.mode true
      (isPinchOf msqrt hand) now hmd
    refine ⟨_, hstep, ?_, ?_, ?_, ?_, ?_, ?_, ?_, ?_⟩
    · rw [stepOutG_mode, himp, hgm]
    · intro _
      rw [stepOutG_events, himp, hgm]
    · intro h
      exact absurd h (by simp)
    · rw [stepOutG_events, himp, hgm]
      exact rfl
    · rw [stepOutG_events, himp, hgm]
      exact rfl
    · rw [stepOutG_events, himp, hgm]
      exact rfl
    · rw [stepOutG_machine, himp, hgm]
    · rw [stepOutG_machine, himp, hgm]
  | true =>
    have hgm := gm_middle_move st.machine st.gesture.cursor.mode true
      (isPinchOf msqrt hand) now hmd
    refine ⟨_, hstep, ?_, ?_, ?_, ?_, ?_, ?_, ?_, ?_⟩
    · rw [stepOutG_mode, himp, hgm]
    · intro h
      exact absurd h (by simp)
    · intro _
      rw [stepOutG_events, himp, hgm]
    · rw [stepOutG_events, himp, hgm]
      exact rfl
    · rw [stepOutG_events, himp, hgm]
      exact rfl
    · rw [stepOutG_events, himp, hgm]
      exact rfl
    · rw [stepOutG_machine, himp, hgm]
    · rw [stepOutG_machine, himp, hgm]

/-- C6 witness: both pinches on the concrete `bothPinchHand`, from the
initial state. -/
theorem C6_witness : ∃ st2,
    handleResult sqrtT defaultConfig initialState
      (Option.some (mkResult bothPinchHand)) 1000 = Except.ok st2 ∧
    st2.gesture.cursor.mode = GestureMode.rotate ∧
    (initialState.machine.isMiddleDragging = false →
      st2.gesture.events = { noEvents with DRAG_MIDDLE_START := true }) ∧
    (initialState.machine.isMiddleDragging = true →
      st2.gesture.events = { noEvents with DRAG_MIDDLE_MOVE := true }) ∧
    st2.gesture.events.DRAG_START = false ∧
    st2.gesture.events.DRAG_MOVE = false ∧
    st2.gesture.events.DRAG_END = false ∧
    st2.machine.isDragging = initialState.machine.isDragging ∧
    st2.machine.dragStartTime = initialState.machine.dragStartTime :=
  C6_theorem sqrtT defaultConfig initialState (mkResult bothPinchHand) 1000 0 bothPinchHand
    rfl ⟨lm (3/10) (1/2), rfl⟩ ⟨lm (4/10) (1/2), rfl⟩ both_ip both_imp

/-! ## Claim C7 — event flags are not mutually exclusive, only groupwise -/

/-- At most one `true` in a list of event flags. -/
abbrev atMostOne (l : List Bool) : Prop := l.count true ≤ 1

/-- The exclusivity that actually holds: at most one event from each of
the three families (middle-drag events; index click/drag events;
pointer/idle events). -/
abbrev eventsGrouped (e : Events) : Prop :=
  atMostOne [e.DRAG_MIDDLE_START, e.DRAG_MIDDLE_MOVE, e.DRAG_MIDDLE_END] ∧
  atMostOne [e.CLICK, e.DOUBLE_CLICK, e.DRAG_START, e.DRAG_MOVE, e.DRAG_END] ∧
  atMostOne [e.IDLE, e.POINTER_MOVE]

set_option maxHeartbeats 1000000 in
/-- Every event set produced by the state machine is groupwise exclusive. -/
theorem gm_grouped (m : MachineState) (mode0 : GestureMode) (ca ip imp : Bool)
    (now : ℚ) : eventsGrouped (gestureMachine m mode0 ca ip imp now).1 := by
  unfold gestureMachine
  rcases imp with _ | _ <;> rcases ip with _ | _ <;>
    rcases hmd : m.isMiddleDragging with _ | _ <;>
    rcases hid : m.isDragging with _ | _ <;>
    rcases ca with _ | _ <;>
    simp only [hmd, hid, Bool.not_true, Bool.not_false, Bool.false_and, Bool.and_false,
      Bool.true_and, Bool.and_true, Bool.and_self, if_true, if_false] <;>
    split_ifs <;> simp_all <;> decide

def c7St1 : InterpState :=
  stepOutG sqrtT defaultConfig initialState (mkResult middlePinchHand) 0 middlePinchHand
    (lm (3/10) (1/2)) (lm (4/10) (1/2)) (lm (1/2) (7/10)) 1000

def c7St2 : InterpState :=
  stepOutG sqrtT defaultConfig c7St1 (mkResult openHand) 0 openHand
    (lm (3/10) (1/2)) (lm (4/10) (1/2)) (lm (1/2) (7/10)) 1100

/-- C7 (counterexample): a middle pinch at t=1000 followed by an open hand
at t=1100 emits BOTH `DRAG_MIDDLE_END` and `POINTER_MOVE` on the release
step — two of the supposedly mutually exclusive flags in one `events`. -/
theorem C7_counterexample :
    handleResult sqrtT defaultConfig initialState
      (Option.some (mkResult middlePinchHand)) 1000 = Except.ok c7St1 ∧
    handleResult sqrtT defaultConfig c7St1 (Option.some (mkResult openHand)) 1100 =
      Except.ok c7St2 ∧
    c7St2.gesture.events.DRAG_MIDDLE_END = true ∧
    c7St2.gesture.events.POINTER_MOVE = true := by
  have hm1 : c7St1.machine = { initialState.machine with isMiddleDragging := true } := by
    rw [c7St1, stepOutG_machine, middle_imp,
      gm_middle_start initialState.machine initialState.gesture.cursor.mode true
        (isPinchOf sqrtT middlePinchHand) 1000 rfl]
  have hgm := gm_middle_end c7St1.machine c7St1.gesture.cursor.mode true 1100
    (by rw [hm1]) (by rw [hm1]; exact rfl)
    (by rw [hm1]; norm_num [initialState, initialMachine])
  have hev : c7St2.gesture.events =
      { noEvents with DRAG_MIDDLE_END := true, POINTER_MOVE := true } := by
    rw [c7St2, stepOutG_events, open_ip, open_imp, hgm]
    simp
  exact ⟨step_middle initialState 1000, step_open c7St1 1100, by rw [hev], by rw [hev]⟩

/-- C7 (amended): the ten flags are not globally mutually exclusive (up to
three can co-occur, e.g. `DRAG_MIDDLE_END` + `DRAG_END` + `POINTER_MOVE`),
but every step preserves groupwise exclusivity: at most one middle-drag
event, at most one index click/drag event, and at most one of
`IDLE`/`POINTER_MOVE` per produced `GestureState`. -/
theorem C7_amended (msqrt : ℚ → ℚ) (cfg : Config) (st : InterpState)
    (result : Option DetectionResult) (now : ℚ) (st2 : InterpState)
    (hprev : eventsGrouped st.gesture.events)
    (hrun : handleResult msqrt cfg st result now = Except.ok st2) :
    eventsGrouped st2.gesture.events := by
  rcases result with _ | res
  · rw [handleResult_null] at hrun
    injection hrun with h
    rw [← h]
    exact hprev
  · simp only [handleResult] at hrun
    rcases hsel : selectHand cfg res with _ | ⟨i, hand⟩ <;>
      rw [hsel] at hrun <;> dsimp only at hrun
    · injection hrun with h
      rw [← h]
      show eventsGrouped idleEvents
      decide
    · unfold processHand at hrun
      rcases h0 : hand[0]? with _ | root <;> rcases h9 : hand[9]? with _ | mcp <;>
        rw [h0, h9] at hrun <;> dsimp only at hrun
      · exact absurd hrun (by simp)
      · exact absurd hrun (by simp)
      · exact absurd hrun (by simp)
      · injection hrun with h
        rw [← h]
        obtain ⟨ca, hev, -, -⟩ :=
          processOut_machine_events msqrt cfg st res i hand root mcp now
        rw [hev]
        exact gm_grouped st.machine st.gesture.cursor.mode ca
          (isPinchOf msqrt hand) (isMiddlePinchOf msqrt hand) now

/-- C7 witness: groupwise exclusivity of the step produced by an open-hand
frame from the initial state. -/
theorem C7_witness :
    eventsGrouped (stepOutG sqrtT defaultConfig initialState (mkResult openHand) 0 openHand
      (lm (3/10) (1/2)) (lm (4/10) (1/2)) (lm (1/2) (7/10)) 1000).gesture.events :=
  C7_amended sqrtT defaultConfig initialState (Option.some (mkResult openHand)) 1000
    (stepOutG sqrtT defaultConfig initialState (mkResult openHand) 0 openHand
      (lm (3/10) (1/2)) (lm (4/10) (1/2)) (lm (1/2) (7/10)) 1000)
    (by decide) (step_open initialState 1000)

/-! ## Claim C8 — effective ROI formula, monotonicity, saturation -/

/-- C8: the effective ROI computed by the interpreter
(useGesture.ts:311-317, the `effectiveRoi` used inside `processOut`)
equals `min 1 (baseROI * clamp(scale/0.10, 0.5, 1.2))`; it is monotonically
non-decreasing in the hand-scale proxy; it saturates at `0.5 * baseROI`
for scales at or below `0.05` and at `min (1.2 * baseROI) 1` for scales at
or above `0.12`. -/
theorem C8_theorem (b s1 s2 scale : ℚ) (hb0 : 0 < b) (hb1 : b ≤ 1) (h12 : s1 ≤ s2) :
    effectiveRoi b scale = min 1 (b * min (12/10) (max (5/10) (scale / (1/10)))) ∧
    effectiveRoi b s1 ≤ effectiveRoi b s2 ∧
    (scale ≤ 1/20 → effectiveRoi b scale = b * (1/2)) ∧
    (3/25 ≤ scale → effectiveRoi b scale = min (b * (12/10)) 1) := by
  have hmin : ∀ t : ℚ, effectiveRoi b t =
      min 1 (b * min (12/10) (max (5/10) (t / (1/10)))) := by
    intro t
    unfold effectiveRoi
    dsimp only
    split
    · rename_i h
      exact (min_eq_left (le_of_lt h)).symm
    · rename_i h
      exact (min_eq_right (not_lt.mp h)).symm
  refine ⟨hmin scale, ?_, ?_, ?_⟩
  · have hclamp : min (12/10 : ℚ) (max (5/10) (s1 / (1/10))) ≤
        min (12/10) (max (5/10) (s2 / (1/10))) := by
      refine min_le_min le_rfl (max_le_max le_rfl ?_)
      exact (div_le_div_right (by norm_num : (0:ℚ) < 1/10)).mpr h12
    calc effectiveRoi b s1
        = min 1 (b * min (12/10) (max (5/10) (s1 / (1/10)))) := hmin s1
      _ ≤ min 1 (b * min (12/10) (max (5/10) (s2 / (1/10)))) :=
          min_le_min le_rfl (mul_le_mul_of_nonneg_left hclamp hb0.le)
      _ = effectiveRoi b s2 := (hmin s2).symm
  · intro hsc
    rw [hmin scale]
    have h1 : scale / (1/10) ≤ 5/10 := by
      rw [div_le_iff (by norm_num : (0:ℚ) < 1/10)]
      linarith
    rw [max_eq_left h1, min_eq_right (by norm_num : (5/10:ℚ) ≤ 12/10),
      min_eq_right (by nlinarith : b * (5/10) ≤ 1)]
    ring
  · intro hsc
    rw [hmin scale]
    have h1 : (12/10 : ℚ) ≤ scale / (1/10) := by
      rw [le_div_iff (by norm_num : (0:ℚ) < 1/10)]
      linarith
    rw [max_eq_right (le_trans (by norm_num) h1), min_eq_left h1, min_comm]

/-- C8 witness: base ROI 0.8 and scales 0.01 ≤ 0.1. -/
theorem C8_witness :
    effectiveRoi (8/10) (3/100) =
      min 1 ((8/10) * min (12/10) (max (5/10) ((3/100) / (1/10)))) ∧
    effectiveRoi (8/10) (1/100) ≤ effectiveRoi (8/10) (1/10) ∧
    ((3/100 : ℚ) ≤ 1/20 → effectiveRoi (8/10) (3/100) = (8/10) * (1/2)) ∧
    ((3/25 : ℚ) ≤ 3/100 → effectiveRoi (8/10) (3/100) = min ((8/10) * (12/10)) 1) :=
  C8_theorem (8/10) (1/100) (1/10) (3/100) (by norm_num) (by norm_num) (by norm_num)

/-! ## Claim C9 — smoothing buffer semantics -/

theorem pushBuffer_length (size : Nat) (buf : List (ℚ × ℚ)) (p : ℚ × ℚ)
    (h : buf.length ≤ size) :
    (pushBuffer size buf p).length = min (buf.length + 1) size := by
  unfold pushBuffer
  dsimp only
  split
  · rename_i hlt
    simp at hlt ⊢
    omega
  · rename_i hlt
    simp at hlt ⊢
    omega

/-- Iterate `pushBuffer` with the same point `n` times. -/
def pushIter (size : Nat) (p : ℚ × ℚ) : Nat → List (ℚ × ℚ) → List (ℚ × ℚ)
  | 0, buf => buf
  | n + 1, buf => pushIter size p n (pushBuffer size buf p)

/-- The buffer after `n` pushes of `p` is the right-most window (of width
at most `size`) of the original contents followed by `n` copies of `p`. -/
theorem pushIter_suffix (size : Nat) (p : ℚ × ℚ) :
    ∀ (n : Nat) (buf : List (ℚ × ℚ)), buf.length ≤ size →
    pushIter size p n buf =
      (buf ++ List.replicate n p).drop
        (buf.length + n - min (buf.length + n) size) := by
  intro n
  induction n with
  | zero =>
    intro buf h
    have hm : buf.length - min buf.length size = 0 := by omega
    simp [pushIter, hm]
  | succ n ih =>
    intro buf h
    show pushIter size p n (pushBuffer size buf p) = _
    by_cases hc : size < (buf ++ [p]).length
    · -- shift: the buffer was full (length = size)
      have hlen : buf.length = size := by
        simp at hc
        omega
      have hb : pushBuffer size buf p = (buf ++ [p]).tail := by
        unfold pushBuffer
        dsimp only
        rw [if_pos hc]
      rw [hb]
      rcases buf with _ | ⟨x, xs⟩
      · -- size = 0
        simp at hlen
        have htail : (([] : List (ℚ × ℚ)) ++ [p]).tail = [] := rfl
        rw [htail, ih [] (by simp)]
        simp [List.drop_replicate, ← hlen]
      · have htail : ((x :: xs) ++ [p]).tail = xs ++ [p] := rfl
        rw [htail, ih (xs ++ [p]) (by simp at hlen ⊢; omega)]
        have hxy : (xs ++ [p]) ++ List.replicate n p = xs ++ List.replicate (n + 1) p := by
          rw [List.append_assoc]
          rfl
        rw [hxy]
        have hL : (x :: xs).length = size := hlen
        have e1 : (xs ++ [p]).length + n - min ((xs ++ [p]).length + n) size = n := by
          simp at hL ⊢
          omega
        have e2 : (x :: xs).length + (n + 1) - min ((x :: xs).length + (n + 1)) size
            = n + 1 := by
          simp at hL ⊢
          omega
        rw [e1, e2]
        rfl
    · -- no shift
      have hb : pushBuffer size buf p = buf ++ [p] := by
        unfold pushBuffer
        dsimp only
        rw [if_neg hc]
      rw [hb, ih (buf ++ [p]) (by simp at hc ⊢; omega)]
      have hxy : (buf ++ [p]) ++ List.replicate n p = buf ++ List.replicate (n + 1) p := by
        rw [List.append_assoc]
        rfl
      rw [hxy]
      congr 1
      simp
      omega

/-- After at least `size` pushes of the same point, the buffer is exactly
`size` copies of that point. -/
theorem pushIter_fill (size : Nat) (p : ℚ × ℚ) (n : Nat) (buf : List (ℚ × ℚ))
    (hlen : buf.length ≤ size) (hn : size ≤ n) :
    pushIter size p n buf = List.replicate size p := by
  rw [pushIter_suffix size p n buf hlen]
  have hm : min (buf.length + n) size = size := by omega
  rw [hm, show buf.length + n - size = buf.length + (n - size) by omega,
    List.drop_append (n - size), List.drop_replicate]
  congr 1
  omega

/-- The mean of a constant buffer is that constant. -/
theorem bufferAvg_replicate (size : Nat) (p : ℚ × ℚ) (h : 1 ≤ size) :
    bufferAvg (List.replicate size p) = p := by
  unfold bufferAvg
  have hs : ((size : ℚ)) ≠ 0 := Nat.cast_ne_zero.mpr (by omega)
  simp [List.map_replicate, List.sum_replicate, nsmul_eq_mul]
  rw [Prod.ext_iff]
  constructor <;> dsimp only <;>
    rw [mul_comm, mul_div_assoc, div_self hs, mul_one]

/-- C9: on a qualifying-hand step the new buffer is the old one with the
mapped point pushed (bounded by the profile size 2/5/10), and the
normalized cursor output is the arithmetic mean of the new buffer's
contents scaled by the viewport; pushing the same mapped point at least
`size` times from any in-bounds buffer makes the smoothed output equal
that point exactly. -/
theorem C9_theorem (msqrt : ℚ → ℚ) (cfg : Config) (st : InterpState)
    (res : DetectionResult) (now : ℚ) (i : Nat) (hand : List Landmark)
    (root mcp tip : Landmark) (st2 : InterpState)
    (hsel : selectHand cfg res = Option.some (i, hand))
    (h0 : hand[0]? = Option.some root) (h9 : hand[9]? = Option.some mcp)
    (h8 : hand[8]? = Option.some tip)
    (hlen : st.positionBuffer.length ≤ bufferSizeMap cfg.smoothing)
    (hrun : handleResult msqrt cfg st (Option.some res) now = Except.ok st2) :
    st2.positionBuffer =
      pushBuffer (bufferSizeMap cfg.smoothing) st.positionBuffer
        (mapPoint (effectiveRoi cfg.roi
          (msqrt ((root.x - mcp.x)^2 + (root.y - mcp.y)^2))) tip) ∧
    st2.positionBuffer.length ≤ bufferSizeMap cfg.smoothing ∧
    st2.gesture.cursor.x = (bufferAvg st2.positionBuffer).1 * cfg.innerWidth ∧
    st2.gesture.cursor.y = (bufferAvg st2.positionBuffer).2 * cfg.innerHeight ∧
    bufferSizeMap SmoothingProfile.Fast = 2 ∧
    bufferSizeMap SmoothingProfile.Balanced = 5 ∧
    bufferSizeMap SmoothingProfile.Smooth = 10 ∧
    (∀ (p : ℚ × ℚ) (n : Nat), bufferSizeMap cfg.smoothing ≤ n →
      bufferAvg (pushIter (bufferSizeMap cfg.smoothing) p n st.positionBuffer) = p) := by
  rw [handleResult_step msqrt cfg st res now i hand root mcp tip hsel h0 h9 h8] at hrun
  injection hrun with h
  rw [← h]
  refine ⟨stepOutG_buffer msqrt cfg st res i hand root mcp tip now, ?_, rfl, rfl,
    rfl, rfl, rfl, ?_⟩
  · rw [stepOutG_buffer,
      pushBuffer_length (bufferSizeMap cfg.smoothing) st.positionBuffer _ hlen]
    omega
  · intro p n hn
    rw [pushIter_fill (bufferSizeMap cfg.smoothing) p n st.positionBuffer hlen hn,
      bufferAvg_replicate (bufferSizeMap cfg.smoothing) p
        (bufferSizeMap_pos cfg.smoothing)]

/-- C9 witness: the open-hand step from the initial (empty-buffer) state. -/
theorem C9_witness :
    (stepOutG sqrtT defaultConfig initialState (mkResult openHand) 0 openHand
      (lm (3/10) (1/2)) (lm (4/10) (1/2)) (lm (1/2) (7/10)) 1000).positionBuffer =
      pushBuffer (bufferSizeMap defaultConfig.smoothing) initialState.positionBuffer
        (mapPoint (effectiveRoi defaultConfig.roi
          (sqrtT (((lm (3/10) (1/2)).x - (lm (4/10) (1/2)).x)^2 +
                  ((lm (3/10) (1/2)).y - (lm (4/10) (1/2)).y)^2))) (lm (1/2) (7/10))) ∧
    (stepOutG sqrtT defaultConfig initialState (mkResult openHand) 0 openHand
      (lm (3/10) (1/2)) (lm (4/10) (1/2)) (lm (1/2) (7/10)) 1000).positionBuffer.length ≤
      bufferSizeMap defaultConfig.smoothing ∧
    (stepOutG sqrtT defaultConfig initialState (mkResult openHand) 0 openHand
      (lm (3/10) (1/2)) (lm (4/10) (1/2)) (lm (1/2) (7/10)) 1000).gesture.cursor.x =
      (bufferAvg (stepOutG sqrtT defaultConfig initialState (mkResult openHand) 0 openHand
        (lm (3/10) (1/2)) (lm (4/10) (1/2)) (lm (1/2) (7/10)) 1000).positionBuffer).1 *
        defaultConfig.innerWidth ∧
    (stepOutG sqrtT defaultConfig initialState (mkResult openHand) 0 openHand
      (lm (3/10) (1/2)) (lm (4/10) (1/2)) (lm (1/2) (7/10)) 1000).gesture.cursor.y =
      (bufferAvg (stepOutG sqrtT defaultConfig initialState (mkResult openHand) 0 openHand
        (lm (3/10) (1/2)) (lm (4/10) (1/2)) (lm (1/2) (7/10)) 1000).positionBuffer).2 *
        defaultConfig.innerHeight ∧
    bufferSizeMap SmoothingProfile.Fast = 2 ∧
    bufferSizeMap SmoothingProfile.Balanced = 5 ∧
    bufferSizeMap SmoothingProfile.Smooth = 10 ∧
    (∀ (p : ℚ × ℚ) (n : Nat), bufferSizeMap defaultConfig.smoothing ≤ n →
      bufferAvg (pushIter (bufferSizeMap defaultConfig.smoothing) p n
        initialState.positionBuffer) = p) :=
  C9_theorem sqrtT defaultConfig initialState (mkResult openHand) 1000 0 openHand
    (lm (3/10) (1/2)) (lm (4/10) (1/2)) (lm (1/2) (7/10))
    (stepOutG sqrtT defaultConfig initialState (mkResult openHand) 0 openHand
      (lm (3/10) (1/2)) (lm (4/10) (1/2)) (lm (1/2) (7/10)) 1000)
    rfl rfl rfl rfl (by simp [initialState]) (step_open initialState 1000)

/-! ## Claim C10 — late worker replies are applied without a camera guard -/

/-- A running system: camera on, idle worker, initial interpreter state. -/
def sampleSys : SystemState :=
  { isCameraActive := true
    isBusy := false
    interp := initialState }

/-- C10: `stopCamera` deactivates the cursor, but the `result` branch of
`worker.onmessage` (useGesture.ts:184-188) calls `handleResult`
unconditionally — there is NO `isCameraActive` guard — so a late detection
reply arriving after `stopCamera` is fully applied: it updates
`GestureState` and sets `cursor.active` back to `true` while the camera is
inactive. -/
theorem C10_theorem :
    (stopCamera sampleSys).isCameraActive = false ∧
    (stopCamera sampleSys).interp.gesture.cursor.active = false ∧
    onResultMessage sqrtT defaultConfig (stopCamera sampleSys)
      (Option.some (mkResult openHand)) 1000 =
      Except.ok
        { isCameraActive := false
          isBusy := false
          interp := stepOutG sqrtT defaultConfig initialState (mkResult openHand) 0 openHand
            (lm (3/10) (1/2)) (lm (4/10) (1/2)) (lm (1/2) (7/10)) 1000 } ∧
    (stepOutG sqrtT defaultConfig initialState (mkResult openHand) 0 openHand
      (lm (3/10) (1/2)) (lm (4/10) (1/2)) (lm (1/2) (7/10)) 1000).gesture.cursor.active =
      true := by
  refine ⟨rfl, rfl, ?_, rfl⟩
  unfold onResultMessage
  have h : (stopCamera sampleSys).interp = initialState := rfl
  rw [h, step_open initialState 1000]
  rfl
